import Mathlib

/-!
Verification of the Web2API extraction-pipeline backend.

This file gives a shallow embedding, in Lean 4, of the pure core of the
`web2api-backend` repository: the JSON-like values the Python code passes
around, the cache-key hashing (`src/utils/hash_utils.py`,
`src/services/cache/cache_service.py`), the monitor scheduling logic
(`src/services/monitoring/monitor_service.py`,
`steps/cron/run_scheduled_monitors_step.py`), and the event-step handlers
(`steps/api/run_scraper_step.py`, `steps/api/create_scraper_step.py`,
`steps/events/store_results_step.py`,
`steps/events/handle_extraction_error_step.py`).

Modelling conventions, used consistently below:

* Python values are modelled by the inductive `JVal`; Python dicts become
  association lists that keep insertion order, exactly as Python 3 dicts do.
* The Motia state store is a list of `(group, key, value)` triples; `set`
  prepends (so the newest write shadows), `delete` removes every entry.
* Every handler is a pure function from the store (and its other inputs) to
  its return value together with the ordered list of effects it performs
  (state writes, state deletes, event emissions, progress-stream writes).
  No handler in this repository reads a `(group, key)` cell after writing it
  within the same invocation, so reads are taken against the pre-invocation
  store, which is observationally identical to threading the effects.
* Wall-clock instants (Python ISO-8601 strings produced by
  `datetime.now(timezone.utc).isoformat()`) are modelled as integers
  (`JVal.num`); `isoformat` and `datetime.fromisoformat` are mutually
  inverse and order-preserving, so the ordering facts proved here transfer.
* Non-deterministic id minting (`uuid.uuid4`) and the croniter library are
  passed in as parameters.
-/

namespace Web2API

/-- JSON-like Python values.  Dicts are insertion-ordered association lists,
as in Python 3.  (Floats do not occur in the verified fragment.) -/
inductive JVal where
  | null
  | bool (b : Bool)
  | num (n : Int)
  | str (s : String)
  | arr (xs : List JVal)
  | obj (fs : List (String × JVal))
deriving Repr, Inhabited

mutual

/-- Structural (Python `==`) equality of values. -/
def beqJ : JVal → JVal → Bool
  | .null, .null => true
  | .bool a, .bool b => a == b
  | .num a, .num b => a == b
  | .str a, .str b => a == b
  | .arr a, .arr b => beqArr a b
  | .obj a, .obj b => beqObj a b
  | _, _ => false

/-- Elementwise equality of lists of values. -/
def beqArr : List JVal → List JVal → Bool
  | [], [] => true
  | x :: xs, y :: ys => beqJ x y && beqArr xs ys
  | _, _ => false

/-- Pairwise equality of dict bodies (same keys in the same order). -/
def beqObj : List (String × JVal) → List (String × JVal) → Bool
  | [], [] => true
  | (k, v) :: xs, (k', v') :: ys => k == k' && beqJ v v' && beqObj xs ys
  | _, _ => false

end

/-- Python truthiness (`bool(v)`): `None`, `False`, `0`, `""`, `[]`, `{}`
are falsy, everything else is truthy. -/
def truthy : JVal → Bool
  | .null => false
  | .bool b => b
  | .num n => n != 0
  | .str s => s != ""
  | .arr xs => !xs.isEmpty
  | .obj fs => !fs.isEmpty

/-- A Python dict body: insertion-ordered key/value pairs. -/
abbrev Obj := List (String × JVal)

/-- First binding of a key in a dict body. -/
def olookup : Obj → String → Option JVal
  | [], _ => none
  | (k, v) :: rest, key => if k = key then some v else olookup rest key

/-- Python `d.get(k, default)`.  On a non-dict receiver Python raises
`AttributeError`; every call site below either guards with `isinstance`
or is only reached with a dict, so the total default-returning reading
is faithful on all reachable inputs. -/
def jget (v : JVal) (k : String) (d : JVal) : JVal :=
  match v with
  | .obj fs => (olookup fs k).getD d
  | _ => d

/-- Python dict item assignment `d[k] = v`: replace the first binding in
place, or append a new binding at the end (insertion order). -/
def objSet : Obj → String → JVal → Obj
  | [], k, v => [(k, v)]
  | (k', v') :: rest, k, v => if k' = k then (k, v) :: rest else (k', v') :: objSet rest k v

/-- `d[k] = v` on a `JVal` known to be a dict (no-op otherwise; Python
raises there, and no modelled call site reaches a non-dict). -/
def jSet (v : JVal) (k : String) (x : JVal) : JVal :=
  match v with
  | .obj fs => .obj (objSet fs k x)
  | _ => v

/-- Is this value a Python dict? (`isinstance(v, dict)`) -/
def JVal.isObj : JVal → Bool
  | .obj _ => true
  | _ => false

/-- Is this value a Python str? (`isinstance(v, str)`) -/
def JVal.isStr : JVal → Bool
  | .str _ => true
  | _ => false

/-- Python `str(v)` for the scalar values that reach string interpolation
in the modelled code (f-strings and `str(schema)`). -/
def pyStr : JVal → String
  | .null => "None"
  | .bool true => "True"
  | .bool false => "False"
  | .num n => toString n
  | .str s => s
  | .arr _ => ""
  | .obj _ => ""

/-- Python `type(v).__name__` for modelled values. -/
def pyTypeName : JVal → String
  | .null => "NoneType"
  | .bool _ => "bool"
  | .num _ => "int"
  | .str _ => "str"
  | .arr _ => "list"
  | .obj _ => "dict"

end Web2API

namespace Web2API.Sha256

/-! ### SHA-256 (`hashlib.sha256`), over `Nat` with explicit mod 2^32.

A direct transcription of FIPS 180-4, used by `src/utils/hash_utils.py`
(`hash_url`, `hash_url_full`) and
`src/services/cache/cache_service.py` (`generate_extraction_cache_key`). -/

/-- 2^32. -/
def M32 : Nat := 4294967296

/-- 32-bit right-rotate. -/
def rotr (x n : Nat) : Nat := ((x >>> n) ||| (x <<< (32 - n))) % M32

/-- 32-bit complement. -/
def bnot (x : Nat) : Nat := 4294967295 - x

/-- The 64 round constants (fractional parts of the cube roots of the
first 64 primes), in decimal. -/
def K : List Nat :=
  [1116352408, 1899447441, 3049323471, 3921009573, 961987163, 1508970993,
   2453635748, 2870763221, 3624381080, 310598401, 607225278, 1426881987,
   1925078388, 2162078206, 2614888103, 3248222580, 3835390401, 4022224774,
   264347078, 604807628, 770255983, 1249150122, 1555081692, 1996064986,
   2554220882, 2821834349, 2952996808, 3210313671, 3336571891, 3584528711,
   113926993, 338241895, 666307205, 773529912, 1294757372, 1396182291,
   1695183700, 1986661051, 2177026350, 2456956037, 2730485921, 2820302411,
   3259730800, 3345764771, 3516065817, 3600352804, 4094571909, 275423344,
   430227734, 506948616, 659060556, 883997877, 958139571, 1322822218,
   1537002063, 1747873779, 1955562222, 2024104815, 2227730452, 2361852424,
   2428436474, 2756734187, 3204031479, 3329325298]

/-- Initial hash value (fractional parts of the square roots of the first
eight primes), in decimal. -/
def H0 : List Nat :=
  [1779033703, 3144134277, 1013904242, 2773480762,
   1359893119, 2600822924, 528734635, 1541459225]

/-- UTF-8 encoding of one scalar value (Python `str.encode('utf-8')`). -/
def encodeChar (c : Char) : List Nat :=
  let n := c.toNat
  if n < 0x80 then [n]
  else if n < 0x800 then [0xC0 ||| (n >>> 6), 0x80 ||| (n &&& 0x3F)]
  else if n < 0x10000 then
    [0xE0 ||| (n >>> 12), 0x80 ||| ((n >>> 6) &&& 0x3F), 0x80 ||| (n &&& 0x3F)]
  else
    [0xF0 ||| (n >>> 18), 0x80 ||| ((n >>> 12) &&& 0x3F),
     0x80 ||| ((n >>> 6) &&& 0x3F), 0x80 ||| (n &&& 0x3F)]

/-- UTF-8 bytes of a string. -/
def utf8Bytes (s : String) : List Nat := s.data.flatMap encodeChar

/-- Merkle–Damgård padding: append 0x80, zeros to 56 mod 64, then the
bit length as 8 big-endian bytes. -/
def pad (msg : List Nat) : List Nat :=
  let L := msg.length
  let zeros := (64 - ((L + 9) % 64)) % 64
  let lenBytes := (List.range 8).map fun i => ((L * 8) >>> ((7 - i) * 8)) % 256
  msg ++ [0x80] ++ List.replicate zeros 0 ++ lenBytes

/-- Split into 64-byte chunks, with structural fuel so that the kernel can
reduce it (each step consumes at least one element, so `l.length` steps
always suffice). -/
def chunks64Go : Nat → List Nat → List (List Nat)
  | _, [] => []
  | 0, l => [l]
  | fuel + 1, x :: xs => (x :: xs).take 64 :: chunks64Go fuel ((x :: xs).drop 64)

/-- Split into 64-byte chunks (a padded message splits exactly). -/
def chunks64 (l : List Nat) : List (List Nat) := chunks64Go l.length l

/-- Big-endian 32-bit words of a 64-byte block. -/
def toWords (block : List Nat) : List Nat :=
  (List.range 16).map fun i =>
    (block.getD (4*i) 0) * 16777216 + (block.getD (4*i+1) 0) * 65536 +
    (block.getD (4*i+2) 0) * 256 + block.getD (4*i+3) 0

/-- Message-schedule extension from 16 to 64 words. -/
def extend (w : List Nat) : Nat → List Nat
  | 0 => w
  | n+1 =>
    let w' := extend w n
    let i := w'.length
    let s0 :=
      let x := w'.getD (i-15) 0
      (rotr x 7) ^^^ (rotr x 18) ^^^ (x >>> 3)
    let s1 :=
      let x := w'.getD (i-2) 0
      (rotr x 17) ^^^ (rotr x 19) ^^^ (x >>> 10)
    w' ++ [(w'.getD (i-16) 0 + s0 + w'.getD (i-7) 0 + s1) % M32]

/-- One compression round. -/
def round (st : List Nat) (ki wi : Nat) : List Nat :=
  match st with
  | [a, b, c, d, e, f, g, h] =>
    let S1 := (rotr e 6) ^^^ (rotr e 11) ^^^ (rotr e 25)
    let ch := (e &&& f) ^^^ ((bnot e) &&& g)
    let temp1 := (h + S1 + ch + ki + wi) % M32
    let S0 := (rotr a 2) ^^^ (rotr a 13) ^^^ (rotr a 22)
    let maj := (a &&& b) ^^^ (a &&& c) ^^^ (b &&& c)
    let temp2 := (S0 + maj) % M32
    [(temp1 + temp2) % M32, a, b, c, (d + temp1) % M32, e, f, g]
  | other => other

/-- Compress one 64-byte block into the running hash. -/
def compress (h : List Nat) (block : List Nat) : List Nat :=
  let w := extend (toWords block) 48
  let st := (List.zip K w).foldl (fun st kw => round st kw.1 kw.2) h
  (List.zip h st).map fun p => (p.1 + p.2) % M32

/-- SHA-256 digest (8 words) of a byte list. -/
def digestWords (msg : List Nat) : List Nat :=
  (chunks64 (pad msg)).foldl compress H0

/-- Lowercase hex digit. -/
def hexDigit (n : Nat) : Char :=
  if n < 10 then Char.ofNat (48 + n) else Char.ofNat (87 + n)

/-- 8-hex-digit rendering of a 32-bit word. -/
def wordHex (w : Nat) : List Char :=
  (List.range 8).map fun i => hexDigit ((w >>> ((7 - i) * 4)) % 16)

/-- `hashlib.sha256(s.encode('utf-8')).hexdigest()`. -/
def sha256Hex (s : String) : String :=
  ⟨(digestWords (utf8Bytes s)).flatMap wordHex⟩

end Web2API.Sha256

namespace Web2API

/-- `s[:n]` — prefix of a string, by codepoints (kernel-reducible,
unlike `String.take`). -/
def strTake (s : String) (n : Nat) : String := ⟨s.data.take n⟩

/-- Python `str.strip()` whitespace set. -/
def isPySpace (c : Char) : Bool :=
  c = ' ' || c = '\t' || c = '\n' || c = '\r' || c.toNat = 11 || c.toNat = 12

/-- Python `str.strip()` (kernel-reducible, unlike `String.trim`). -/
def pyStrip (s : String) : String :=
  ⟨((s.data.dropWhile isPySpace).reverse.dropWhile isPySpace).reverse⟩

/-- Python `for x in v` for the values the modelled code iterates: lists
yield their elements, strings their characters, dicts their keys;
everything else raises `TypeError` (`none`). -/
def pyIter : JVal → Option (List JVal)
  | .arr xs => some xs
  | .str s => some (s.data.map fun c => .str (String.singleton c))
  | .obj fs => some (fs.map fun kv => .str kv.1)
  | _ => none

open Sha256 in
/-- `hash_url` (src/utils/hash_utils.py): first 12 hex chars of SHA-256. -/
def hash_url (url : String) : String := strTake (sha256Hex url) 12

open Sha256 in
/-- `hash_url_full` (src/utils/hash_utils.py): full SHA-256 hex digest. -/
def hash_url_full (url : String) : String := sha256Hex url

/-- `generate_monitor_id` (src/utils/hash_utils.py). -/
def generate_monitor_id (scraper_id url : String) : String :=
  scraper_id ++ "_" ++ hash_url url

/-! ### `json.dumps(schema, sort_keys=True)`

Python's default dump settings: item separator `", "`, key separator `": "`,
`ensure_ascii=True` (codepoints outside `0x20..0x7e` escaped as `\uXXXX`,
astral codepoints as surrogate pairs), keys sorted by codepoint order at
every nesting level. -/

/-- `\uXXXX` escape. -/
def escU (n : Nat) : String :=
  ⟨'\\' :: 'u' :: ((List.range 4).map fun i => Sha256.hexDigit ((n >>> ((3 - i) * 4)) % 16))⟩

/-- JSON escape of one character, `ensure_ascii` style. -/
def pyQuoteChar (c : Char) : String :=
  if c = '"' then "\\\""
  else if c = '\\' then "\\\\"
  else if c = '\n' then "\\n"
  else if c = '\r' then "\\r"
  else if c = '\t' then "\\t"
  else if c.toNat = 8 then "\\b"
  else if c.toNat = 12 then "\\f"
  else if c.toNat < 0x20 || 0x7e < c.toNat then
    if c.toNat < 0x10000 then escU c.toNat
    else
      escU (0xd800 + ((c.toNat - 0x10000) >>> 10)) ++
      escU (0xdc00 + ((c.toNat - 0x10000) &&& 0x3ff))
  else String.singleton c

/-- JSON string literal for `s`. -/
def pyQuote (s : String) : String :=
  "\"" ++ String.join (s.data.map pyQuoteChar) ++ "\""

/-- Codepoint-lexicographic `≤` on character lists — Python's `str`
comparison, which is what `sorted` uses for `sort_keys=True`.
(Implemented directly so the kernel can reduce it; the library order on
`String` goes through the non-reducing `String.ltb`.) -/
def charListLe : List Char → List Char → Bool
  | [], _ => true
  | _ :: _, [] => false
  | a :: as, b :: bs =>
    if a.toNat < b.toNat then true
    else if b.toNat < a.toNat then false
    else charListLe as bs

/-- Python string `≤`. -/
def strLeB (a b : String) : Bool := charListLe a.data b.data

/-- Key order used by `sort_keys=True`: codepoint order on the key,
ignoring the already-serialized value component. -/
def keyLe (a b : String × String) : Prop := strLeB a.1 b.1 = true

instance : DecidableRel keyLe :=
  fun a b => inferInstanceAs (Decidable (strLeB a.1 b.1 = true))

theorem charListLe_total (a b : List Char) : charListLe a b = true ∨ charListLe b a = true := by
  induction a generalizing b with
  | nil => left; rfl
  | cons x xs ih =>
    cases b with
    | nil => right; rfl
    | cons y ys =>
      by_cases hxy : x.toNat < y.toNat
      · left; simp [charListLe, hxy]
      · by_cases hyx : y.toNat < x.toNat
        · right; simp [charListLe, hyx]
        · rcases ih ys with h | h
          · left; simp [charListLe, hxy, hyx, h]
          · right; simp [charListLe, hxy, hyx, h]

theorem charListLe_trans {a b c : List Char} (h1 : charListLe a b = true)
    (h2 : charListLe b c = true) : charListLe a c = true := by
  induction a generalizing b c with
  | nil => rfl
  | cons x xs ih =>
    cases b with
    | nil => simp [charListLe] at h1
    | cons y ys =>
      cases c with
      | nil => simp [charListLe] at h2
      | cons z zs =>
        simp only [charListLe] at h1 h2 ⊢
        split_ifs at h1 h2 ⊢ <;>
          first
          | rfl
          | exact ih h1 h2
          | exact Bool.noConfusion h1
          | exact Bool.noConfusion h2
          | (exfalso; omega)

theorem charListLe_antisymm {a b : List Char} (h1 : charListLe a b = true)
    (h2 : charListLe b a = true) : a = b := by
  induction a generalizing b with
  | nil =>
    cases b with
    | nil => rfl
    | cons y ys => simp [charListLe] at h2
  | cons x xs ih =>
    cases b with
    | nil => simp [charListLe] at h1
    | cons y ys =>
      by_cases hxy : x.toNat < y.toNat
      · exfalso
        have hyx : ¬ y.toNat < x.toNat := by omega
        simp [charListLe, hxy, hyx] at h2
      · by_cases hyx : y.toNat < x.toNat
        · exfalso; simp [charListLe, hxy, hyx] at h1
        · have h1' : charListLe xs ys = true := by simpa [charListLe, hxy, hyx] using h1
          have h2' : charListLe ys xs = true := by simpa [charListLe, hxy, hyx] using h2
          have hc : x = y := by
            have hn : x.toNat = y.toNat := by omega
            have := congrArg Char.ofNat hn
            rwa [Char.ofNat_toNat, Char.ofNat_toNat] at this
          subst hc
          exact congrArg (x :: ·) (ih h1' h2')

instance : IsTotal (String × String) keyLe :=
  ⟨fun a b => charListLe_total a.1.data b.1.data⟩

instance : IsTrans (String × String) keyLe :=
  ⟨fun _ _ _ h h' => charListLe_trans h h'⟩

mutual

/-- `json.dumps(v, sort_keys=True)`. -/
def dumpsV : JVal → String
  | .null => "null"
  | .bool true => "true"
  | .bool false => "false"
  | .num n => toString n
  | .str s => pyQuote s
  | .arr xs => "[" ++ String.intercalate ", " (dumpsArr xs) ++ "]"
  | .obj fs =>
    "\x7b" ++
      String.intercalate ", "
        ((List.insertionSort keyLe (dumpsFields fs)).map fun kv => pyQuote kv.1 ++ ": " ++ kv.2) ++
    "\x7d"

/-- Serialize every element of a list. -/
def dumpsArr : List JVal → List String
  | [] => []
  | x :: xs => dumpsV x :: dumpsArr xs

/-- Serialize every value of a dict body, keeping keys for later sorting. -/
def dumpsFields : List (String × JVal) → List (String × String)
  | [] => []
  | (k, v) :: rest => (k, dumpsV v) :: dumpsFields rest

end

/-- The schema normalization inside `generate_extraction_cache_key`:
sorted-keys JSON when the schema is a dict, `str(schema)` otherwise. -/
def canonicalSchema : JVal → String
  | .obj fs => dumpsV (.obj fs)
  | s => pyStr s

/-- `generate_extraction_cache_key` (src/services/cache/cache_service.py):
first 16 hex chars of SHA-256 of `url + "|" + schema_str`. -/
def generate_extraction_cache_key (url : String) (schema : JVal) : String :=
  strTake (Sha256.sha256Hex (url ++ "|" ++ canonicalSchema schema)) 16

/-! ### State store and handler effects -/

/-- The Motia state store: `(group, key, value)` triples, newest first. -/
abbrev Store := List (String × String × JVal)

/-- `state.get(group, key)` — the most recent value, if any. -/
def Store.get : Store → String → String → Option JVal
  | [], _, _ => none
  | (g, k, v) :: rest, g', k' => if g = g' ∧ k = k' then some v else Store.get rest g' k'

/-- `state.set(group, key, value)`. -/
def Store.set (st : Store) (g k : String) (v : JVal) : Store := (g, k, v) :: st

/-- `state.delete(group, key)`. -/
def Store.del (st : Store) (g k : String) : Store :=
  st.filter fun e => !(e.1 == g && e.2.1 == k)

/-- One observable side effect of a handler invocation, in program order. -/
inductive Effect where
  | setState (group key : String) (v : JVal)
  | delState (group key : String)
  | emitEvent (topic : String) (data : JVal) (messageGroupId : Option String)
  | progress (jobId status : String) (percent : Int) (message : String)
deriving Repr

/-- Replay a single effect against the store. -/
def applyEffect (st : Store) : Effect → Store
  | .setState g k v => st.set g k v
  | .delState g k => st.del g k
  | .emitEvent _ _ _ => st
  | .progress _ _ _ _ => st

/-- Replay a list of effects, oldest first. -/
def applyEffects (st : Store) (effs : List Effect) : Store :=
  effs.foldl applyEffect st

/-- Is the effect an event emission? -/
def Effect.isEmit : Effect → Bool
  | .emitEvent _ _ _ => true
  | _ => false

/-- Is the effect a progress-stream write? -/
def Effect.isProgress : Effect → Bool
  | .progress _ _ _ _ => true
  | _ => false

/-- Is the effect a state write into the given namespace? -/
def Effect.isSetIn (g : String) : Effect → Bool
  | .setState g' _ _ => g' == g
  | _ => false

/-- The bus traffic of an effect list. -/
def emittedEvents (effs : List Effect) : List Effect := effs.filter Effect.isEmit

/-- The progress-stream traffic of an effect list. -/
def progressWrites (effs : List Effect) : List Effect := effs.filter Effect.isProgress

/-! ### src/utils/state_utils.py -/

/-- `unwrap_state_data(state_result, default)`: `None` gives the default; a
dict with a non-`None` `"data"` binding gives that binding; anything else is
returned as is. -/
def unwrap_state_data (state_result : Option JVal) (default : JVal) : JVal :=
  match state_result with
  | none => default
  | some v =>
    match v with
    | .obj fs =>
      match olookup fs "data" with
      | some inner => if beqJ inner .null then .obj fs else inner
      | none => .obj fs
    | other => other

/-- The one-line unwrap idiom used inline by the event steps:
`r.get("data", r) if isinstance(r, dict) else r` (note: unlike
`unwrap_state_data` it does **not** check the inner value for `None`). -/
def inlineUnwrap (v : JVal) : JVal :=
  match v with
  | .obj fs => (olookup fs "data").getD (.obj fs)
  | other => other

/-! ### src/services/job/job_service.py -/

/-- `create_job_metadata(job_id, scraper_id, url, options)`; `created_at`
is the injected current instant. -/
def create_job_metadata (job_id scraper_id url : String) (options : JVal) (now : Int) : JVal :=
  .obj [
    ("job_id", .str job_id),
    ("scraper_id", .str scraper_id),
    ("url", .str url),
    ("status", .str "queued"),
    ("created_at", .num now),
    ("options", options)]

/-! ### src/services/cache/cache_service.py -/

/-- `get_cached_extraction(state, url, schema)`.  Reads the cache row,
applies the inline `data` unwrap, and answers only when both the unwrapped
value and its own `"data"` field are truthy.  (The `except` that guards the
Python body can only fire on a non-dict truthy unwrapped value, where
`.get` raises; that path also answers `None` here.) -/
def get_cached_extraction (st : Store) (url : String) (schema : JVal) : Option JVal :=
  let cache_key := generate_extraction_cache_key url schema
  match Store.get st "extraction_cache" cache_key with
  | none => none
  | some result =>
    if truthy result then
      let cached_data :=
        match result with
        | .obj fs => (olookup fs "data").getD result
        | other => other
      if truthy cached_data ∧ truthy (jget cached_data "data" .null) then some cached_data
      else none
    else none

/-- `cache_extraction_result(state, url, schema, extraction_data, model,
scraper_id, metadata)`: builds the entry and writes it at the extraction
cache key; answers `True` (state writes are modelled as succeeding). -/
def cache_extraction_result (url : String) (schema extraction_data model scraper_id metadata : JVal)
    (now : Int) : Bool × List Effect :=
  let cache_key := generate_extraction_cache_key url schema
  let cache_entry : JVal := .obj [
    ("data", extraction_data),
    ("url", .str url),
    ("schema", schema),
    ("scraper_id", scraper_id),
    ("model", model),
    ("metadata", if truthy metadata then metadata else .obj []),
    ("cached_at", .num now)]
  (true, [Effect.setState "extraction_cache" cache_key cache_entry])

/-! ### src/services/monitoring/monitor_service.py -/

/-- `parse_schedule(schedule)`: `None` stays `None`; an int becomes an
interval schedule; a string becomes a cron schedule.  (A Python `bool` is
an `int`, but `create_scraper` rejects bools before parsing: `True < 5`.) -/
def parse_schedule (schedule : JVal) : Option JVal :=
  match schedule with
  | .num n => some (.obj [("type", .str "interval"), ("cron", .null), ("interval_minutes", .num n)])
  | .str s => some (.obj [("type", .str "cron"), ("cron", .str s), ("interval_minutes", .null)])
  | _ => none

/-- `calculate_next_run(schedule_info)`.  `cronNext c t` is the croniter
collaborator (`croniter(c, t).get_next`), `none` when it raises — the
Python code then falls back to `now + 60` minutes, as it does for a
missing/unknown schedule type.  The result is `none` exactly when Python
raises: an `interval` schedule whose `interval_minutes` value is present
but not an int (`timedelta(minutes=None)` is a `TypeError`).  Minutes are
the time unit of the integer-coded instants. -/
def calculate_next_run (schedule_info : JVal) (cronNext : String → Int → Option Int)
    (now : Int) : Option Int :=
  if beqJ (jget schedule_info "type" .null) (.str "interval") then
    match jget schedule_info "interval_minutes" (.num 60) with
    | .num m => some (now + m)
    | _ => none
  else if beqJ (jget schedule_info "type" .null) (.str "cron") then
    some (match jget schedule_info "cron" .null with
      | .str c => (cronNext c now).getD (now + 60)
      | _ => now + 60)
  else
    some (now + 60)

/-- `create_monitor(scraper_id, url, schedule_info, existing_monitor)`:
the monitor record, or `none` when `calculate_next_run` raises. -/
def create_monitor (scraper_id url : String) (schedule_info existing : JVal)
    (cronNext : String → Int → Option Int) (now : Int) : Option JVal :=
  match calculate_next_run schedule_info cronNext now with
  | none => none
  | some next_run => some (.obj [
      ("monitor_id", .str (generate_monitor_id scraper_id url)),
      ("scraper_id", .str scraper_id),
      ("url", .str url),
      ("interval_minutes", jget schedule_info "interval_minutes" .null),
      ("cron", jget schedule_info "cron" .null),
      ("schedule_type", jget schedule_info "type" .null),
      ("active", .bool true),
      ("last_run", if truthy existing then .num now else .null),
      ("next_run", .num next_run),
      ("run_count", if truthy existing then jget existing "run_count" (.num 0) else .num 0),
      ("last_job_id", .null),
      ("created_at", if truthy existing then jget existing "created_at" (.num now) else .num now),
      ("updated_at", .num now)])

/-- `auto_add_to_monitoring(state, scraper_id, url, schedule_info)`:
the returned monitoring-info dict plus the monitor upsert, or `none` when
`create_monitor` raises (the caller's enclosing `try` then yields a 500). -/
def auto_add_to_monitoring (st : Store) (scraper_id url : String) (schedule_info : JVal)
    (cronNext : String → Int → Option Int) (now : Int) : Option (JVal × List Effect) :=
  if !truthy schedule_info then
    some (.obj [("monitoring", .bool false), ("monitor_id", .null),
                ("next_run", .null), ("action", .null)], [])
  else
    let monitor_id := generate_monitor_id scraper_id url
    let existing :=
      match Store.get st "monitors" monitor_id with
      | none => .null
      | some r => if truthy r then inlineUnwrap r else JVal.null
    match create_monitor scraper_id url schedule_info existing cronNext now with
    | none => none
    | some monitor_data =>
      let monitor_data' := jSet monitor_data "last_run" (.num now)
      some (.obj [("monitoring", .bool true), ("monitor_id", .str monitor_id),
                  ("next_run", jget monitor_data' "next_run" .null),
                  ("action", .str (if truthy existing then "updated" else "created"))],
            [Effect.setState "monitors" monitor_id monitor_data'])

/-- One iteration of `create_monitors_for_urls`' loop body over a single
url value (skip non-strings and blank strings; otherwise build and write
the monitor and count it). -/
def create_monitor_for_url (scraper_id : String) (schedule_info : JVal)
    (cronNext : String → Int → Option Int) (now : Int) (u : JVal) :
    Option (Nat × List Effect) :=
  match u with
  | .str s =>
    let url := pyStrip s
    if url = "" then some (0, [])
    else
      match create_monitor scraper_id url schedule_info .null cronNext now with
      | none => none
      | some monitor_data =>
        some (1, [Effect.setState "monitors" (generate_monitor_id scraper_id url) monitor_data])
  | _ => some (0, [])

/-- `create_monitors_for_urls(state, scraper_id, urls, schedule_info)`:
count of monitors written plus the writes; `none` when `create_monitor`
raises (possible only for malformed `schedule_info`, which `parse_schedule`
never produces). -/
def create_monitors_for_urls (scraper_id : String) (urls : List JVal) (schedule_info : JVal)
    (cronNext : String → Int → Option Int) (now : Int) : Option (Nat × List Effect) :=
  if urls.isEmpty || !truthy schedule_info then some (0, [])
  else
    urls.foldl
      (fun acc u =>
        match acc with
        | none => none
        | some (n, effs) =>
          match create_monitor_for_url scraper_id schedule_info cronNext now u with
          | none => none
          | some (n', effs') => some (n + n', effs ++ effs'))
      (some (0, []))

/-! ### steps/api/run_scraper_step.py -/

/-- An HTTP-step return value `{"status": ..., "body": ...}`. -/
structure Response where
  status : Nat
  body : JVal
deriving Repr

/-- The common 500 envelope of `run_scraper`'s outer `except`. -/
def resp500 : Response := ⟨500, .obj [("error", .str "Internal server error")]⟩

/-- Steps 5/8 of `run_scraper` — monitoring info: default when the scraper
has no schedule or the caller passed `skip_monitoring`, otherwise
`auto_add_to_monitoring` (whose exception, `none`, becomes the caller's
500). -/
def monitoring_step (st : Store) (scraper_id url : String) (schedule_info : JVal)
    (skip : Bool) (cronNext : String → Int → Option Int) (now : Int) :
    Option (JVal × List Effect) :=
  if truthy schedule_info && !skip then
    auto_add_to_monitoring st scraper_id url schedule_info cronNext now
  else
    some (.obj [("monitoring", .bool false), ("monitor_id", .null), ("next_run", .null)], [])

/-- `handler` of steps/api/run_scraper_step.py.  `scraperIdParam` is the
`scraperId` path parameter, `body` the request body dict, `job_id` the
freshly minted id, `pollResult` the outcome of `poll_for_completion`
(`none` = 30 s timeout), `now` the current instant. -/
def run_scraper_handler (st : Store) (scraperIdParam : Option String) (body : Obj)
    (job_id : String) (cronNext : String → Int → Option Int) (now : Int)
    (pollResult : Option JVal) : Response × List Effect :=
  match scraperIdParam with
  | none => (⟨400, .obj [("error", .str "Scraper ID is required in path")]⟩, [])
  | some scraper_id =>
    if scraper_id = "" then (⟨400, .obj [("error", .str "Scraper ID is required in path")]⟩, [])
    else
      match (olookup body "url").getD (.str "") with
      | .str url0 =>
        let url := pyStrip url0
        if url = "" then (⟨400, .obj [("error", .str "url is required")]⟩, [])
        else
          match (olookup body "options").getD (.obj []) with
          | .obj optFs =>
            let options : JVal := .obj optFs
            let is_async := truthy (jget options "async" (.bool false))
            let skip_monitoring := truthy (jget options "skip_monitoring" (.bool false))
            let scraper := unwrap_state_data (Store.get st "scrapers" scraper_id) .null
            if !truthy scraper then
              (⟨404, .obj [("error", .str ("Scraper '" ++ scraper_id ++ "' not found"))]⟩, [])
            else
              match scraper with
              | .obj _ =>
                match jget scraper "options" (.obj []) with
                | .obj sOptFs =>
                  let scraper_options : JVal := .obj sOptFs
                  let merged_options : JVal := .obj [
                    ("use_cache", jget options "use_cache" (.bool true)),
                    ("wait_for", jget options "wait_for" (jget scraper_options "wait_for" (.num 2000))),
                    ("timeout", jget options "timeout" (jget scraper_options "timeout" (.num 30000))),
                    ("use_simple_scraper", jget options "use_simple_scraper"
                      (jget scraper_options "use_simple_scraper" (.bool false)))]
                  let e1 := Effect.setState "jobs" job_id
                    (create_job_metadata job_id scraper_id url merged_options now)
                  let schema := jget scraper "schema" .null
                  let use_cache := truthy (jget merged_options "use_cache" (.bool true))
                  let schedule_info := jget scraper "schedule_info" .null
                  match (if use_cache && !is_async then get_cached_extraction st url schema else none) with
                  | some ce =>
                    match monitoring_step st scraper_id url schedule_info skip_monitoring cronNext now with
                    | none => (resp500, [e1])
                    | some (mi, effsM) =>
                      (⟨200, .obj [
                        ("job_id", .str job_id),
                        ("scraper_id", .str scraper_id),
                        ("status", .str "completed"),
                        ("data", jget ce "data" (.obj [])),
                        ("url", .str url),
                        ("cached", .bool true),
                        ("cache_type", .str "extraction"),
                        ("cached_at", jget ce "cached_at" .null),
                        ("monitoring", jget mi "monitoring" (.bool false)),
                        ("monitor_id", jget mi "monitor_id" .null),
                        ("next_run", jget mi "next_run" .null)]⟩,
                       [e1] ++ effsM)
                  | none =>
                    let e2 := Effect.setState "job_payloads" job_id
                      (.obj [("schema", schema), ("scraper_id", .str scraper_id)])
                    let e3 := Effect.emitEvent "extraction.requested"
                      (.obj [("job_id", .str job_id), ("url", .str url),
                             ("scraper_id", .str scraper_id), ("options", merged_options)])
                      (some job_id)
                    match monitoring_step st scraper_id url schedule_info skip_monitoring cronNext now with
                    | none => (resp500, [e1, e2, e3])
                    | some (mi, effsM) =>
                      let effs := [e1, e2, e3] ++ effsM
                      if is_async then
                        (⟨202, .obj [
                          ("job_id", .str job_id), ("scraper_id", .str scraper_id),
                          ("status", .str "queued"),
                          ("status_url", .str ("/api/status/" ++ job_id)),
                          ("results_url", .str ("/api/results/" ++ job_id)),
                          ("monitoring", jget mi "monitoring" (.bool false)),
                          ("monitor_id", jget mi "monitor_id" .null),
                          ("next_run", jget mi "next_run" .null)]⟩, effs)
                      else
                        match pollResult with
                        | some r =>
                          if truthy r && beqJ (jget r "status" .null) (.str "completed") then
                            (⟨200, .obj [
                              ("job_id", .str job_id), ("scraper_id", .str scraper_id),
                              ("status", .str "completed"),
                              ("data", jget r "data" (.obj [])),
                              ("url", .str url),
                              ("cached", jget r "cached" (.bool false)),
                              ("monitoring", jget mi "monitoring" (.bool false)),
                              ("monitor_id", jget mi "monitor_id" .null),
                              ("next_run", jget mi "next_run" .null)]⟩, effs)
                          else if truthy r && beqJ (jget r "status" .null) (.str "failed") then
                            (⟨200, .obj [
                              ("job_id", .str job_id), ("scraper_id", .str scraper_id),
                              ("status", .str "failed"),
                              ("error", jget r "error" (.str "Extraction failed")),
                              ("url", .str url),
                              ("monitoring", jget mi "monitoring" (.bool false))]⟩, effs)
                          else
                            (⟨202, .obj [
                              ("job_id", .str job_id), ("scraper_id", .str scraper_id),
                              ("status", .str "queued"),
                              ("message", .str "Request timed out, processing continues in background"),
                              ("status_url", .str ("/api/status/" ++ job_id)),
                              ("results_url", .str ("/api/results/" ++ job_id)),
                              ("monitoring", jget mi "monitoring" (.bool false))]⟩, effs)
                        | none =>
                          (⟨202, .obj [
                            ("job_id", .str job_id), ("scraper_id", .str scraper_id),
                            ("status", .str "queued"),
                            ("message", .str "Request timed out, processing continues in background"),
                            ("status_url", .str ("/api/status/" ++ job_id)),
                            ("results_url", .str ("/api/results/" ++ job_id)),
                            ("monitoring", jget mi "monitoring" (.bool false))]⟩, effs)
                | _ => (resp500, [])
              | _ => (resp500, [])
          | _ => (resp500, [])
      | _ => (resp500, [])

/-! ### steps/events/store_results_step.py -/

/-- `emit_failure(context, job_id, error, stage, url)`. -/
def emit_failure (job_id : JVal) (error stage : String) (url : JVal) : Effect :=
  .emitEvent "extraction.failed"
    (.obj [("job_id", job_id), ("error", .str error), ("stage", .str stage), ("url", url)])
    none

/-- Step 5 of the Store handler: merge `status: completed`, `completed_at`,
`url`, `scraper_id` into the (unwrapped) existing `jobs` row and write it
back; a truthy non-dict row raises inside the step's inner `try` and is
swallowed, producing no write. -/
def store_jobs_update (st : Store) (job_id : String) (url scraper_idJ : JVal)
    (now : Int) : List Effect :=
  let existing_job :=
    match Store.get st "jobs" job_id with
    | some (.obj fs) => (olookup fs "data").getD (.obj fs)
    | _ => .obj []
  match (if truthy existing_job then existing_job else .obj []) with
  | .obj fs =>
    [Effect.setState "jobs" job_id (.obj (objSet (objSet (objSet (objSet
      fs "status" (.str "completed")) "completed_at" (.num now)) "url" url)
      "scraper_id" scraper_idJ))]
  | _ => []

/-- `handler` of steps/events/store_results_step.py.  `validateFn` is the
`validate` of src/services/validator/json_schema_validator.py (draft
2020-12 via the `jsonschema` library): it answers `(is_valid, errors)`. -/
def store_results_handler (st : Store) (input : Obj)
    (validateFn : JVal → JVal → Bool × List String) (now : Int) : List Effect :=
  let job_idJ := (olookup input "job_id").getD (.str "unknown")
  let url := (olookup input "url").getD .null
  let scraper_idJ := (olookup input "scraper_id").getD .null
  let cachedJ := (olookup input "cached").getD (.bool false)
  let cache_typeJ := (olookup input "cache_type").getD .null
  if !truthy job_idJ || beqJ job_idJ (.str "unknown") then
    [emit_failure job_idJ "job_id is required" "storing" .null]
  else
    match job_idJ with
    | .str job_id =>
      let extraction_payload := (Store.get st "extraction_payloads" job_id).getD .null
      if !truthy extraction_payload then
        [emit_failure job_idJ "Extraction payload not found in state" "storing" url]
      else
        let extracted_data := jget extraction_payload "data" .null
        let schema := jget extraction_payload "schema" .null
        let model := jget extraction_payload "model" .null
        let usage_info := jget extraction_payload "usage" (.obj [])
        let metadata := jget extraction_payload "metadata" (.obj [])
        if !truthy extracted_data then
          [emit_failure job_idJ "data is required" "storing" url]
        else if !extracted_data.isObj then
          [emit_failure job_idJ ("data must be dict, got " ++ pyTypeName extracted_data) "storing" url]
        else
          let p1 := Effect.progress job_id "validating" 90 "Validating results..."
          let validationFailure : Option String :=
            if truthy schema && schema.isObj then
              if !(validateFn extracted_data schema).1 then
                some ("Validation failed: " ++
                  String.intercalate ", " ((validateFn extracted_data schema).2.take 3))
              else none
            else none
          match validationFailure with
          | some error_msg => [p1, emit_failure job_idJ error_msg "storing" url]
          | none =>
            let extraction_result : JVal := .obj [
              ("job_id", job_idJ), ("status", .str "completed"), ("data", extracted_data),
              ("url", url), ("schema", schema), ("scraper_id", scraper_idJ),
              ("completed_at", .num now), ("model", model), ("usage", usage_info),
              ("cached", cachedJ), ("metadata", metadata)]
            let e1 := Effect.setState "extractions" job_id extraction_result
            let jobsEffs : List Effect := store_jobs_update st job_id url scraper_idJ now
            let cacheEffs : List Effect :=
              if !truthy cachedJ || !beqJ cache_typeJ (.str "extraction") then
                if truthy url && truthy schema then
                  (cache_extraction_result (pyStr url) schema extracted_data model
                    scraper_idJ metadata now).2
                else []
              else []
            [p1, e1] ++ jobsEffs ++ cacheEffs ++
              [Effect.delState "extraction_payloads" job_id,
               Effect.delState "job_payloads" job_id,
               Effect.progress job_id "completed" 100 "Extraction completed",
               Effect.emitEvent "results.stored"
                 (.obj [("job_id", job_idJ), ("url", url), ("scraper_id", scraper_idJ),
                        ("completed_at", .num now), ("cached", cachedJ)]) none]
    | _ => []

/-! ### steps/events/handle_extraction_error_step.py -/

/-- `handler` of steps/events/handle_extraction_error_step.py.  Note that
the job update overwrites `status` unconditionally: there is no check of
the pre-existing status. -/
def handle_extraction_error_handler (st : Store) (input : Obj) (now : Int) : List Effect :=
  let job_idJ := (olookup input "job_id").getD (.str "unknown")
  let error_messageJ := (olookup input "error").getD (.str "Unknown error")
  let stageJ := (olookup input "stage").getD (.str "unknown")
  let url := (olookup input "url").getD .null
  let validation_errors := (olookup input "validation_errors").getD (.arr [])
  if !truthy job_idJ || beqJ job_idJ (.str "unknown") then []
  else
    match job_idJ, error_messageJ with
    | .str job_id, .str error_message =>
      let existing_job :=
        match Store.get st "jobs" job_id with
        | some (.obj fs) => (olookup fs "data").getD (.obj fs)
        | _ => .obj []
      let stateEffs : List Effect :=
        match (if truthy existing_job then existing_job else .obj []) with
        | .obj fs =>
          let jm0 := objSet (objSet (objSet (objSet fs "status" (.str "failed"))
            "error" (.str error_message)) "failed_at" (.num now)) "stage" stageJ
          let jm := if truthy url then objSet jm0 "url" url else jm0
          let error_details : JVal := .obj [
            ("job_id", job_idJ), ("status", .str "failed"), ("error", .str error_message),
            ("stage", stageJ), ("failed_at", .num now), ("url", url),
            ("validation_errors", if truthy validation_errors then validation_errors else .null)]
          [Effect.setState "jobs" job_id (.obj jm),
           Effect.setState "extractions" job_id error_details]
        | _ => []
      let progress_percent : Int :=
        if beqJ stageJ (.str "fetching") then 20
        else if beqJ stageJ (.str "extracting") then 60
        else if beqJ stageJ (.str "storing") then 90
        else 50
      stateEffs ++
        [Effect.progress job_id "failed" progress_percent
          ("[" ++ pyStr stageJ ++ "] " ++ strTake error_message 100)]
    | _, _ => []

/-! ### steps/api/create_scraper_step.py -/

/-- Step 3 of `create_scraper`: validate the `schedule` field.  Answers the
400 error string, or the parsed schedule info.  A Python `bool` is an
`int` (`True < 5` and `False < 5`), so bools hit the minimum check. -/
def scheduleCheck : JVal → String ⊕ Option JVal
  | .null => .inr none
  | .num n => if n < 5 then .inl "schedule must be at least 5 minutes" else .inr (parse_schedule (.num n))
  | .bool _ => .inl "schedule must be at least 5 minutes"
  | .str s => .inr (parse_schedule (.str s))
  | _ => .inl "schedule must be integer (minutes) or cron string"

/-- `handler` of steps/api/create_scraper_step.py.  `scraper_id` is the
freshly minted id and `jobIds n` the id minted for the `n`-th warm-cache
job. -/
def create_scraper_handler (st : Store) (body : Obj) (scraper_id : String)
    (jobIds : Nat → String) (cronNext : String → Int → Option Int) (now : Int) :
    Response × List Effect :=
  match (olookup body "name").getD (.str "") with
  | .str name0 =>
    let name := pyStrip name0
    let schema := (olookup body "schema").getD .null
    if name = "" then (⟨400, .obj [("error", .str "name is required")]⟩, [])
    else if beqJ schema .null then (⟨400, .obj [("error", .str "schema is required")]⟩, [])
    else if !(schema.isStr || schema.isObj) then
      (⟨400, .obj [("error", .str "schema must be string or object")]⟩, [])
    else
      let schedule := (olookup body "schedule").getD .null
      match scheduleCheck schedule with
      | .inl err => (⟨400, .obj [("error", .str err)]⟩, [])
      | .inr schedule_infoO =>
        let monitor_urls := (olookup body "monitor_urls").getD (.arr [])
        match (olookup body "options").getD (.obj []) with
        | .obj optFs =>
          let options : JVal := .obj optFs
          let schedule_infoJ := schedule_infoO.getD .null
          let scraper_options : JVal := .obj [
            ("timeout", jget options "timeout" (.num 30000)),
            ("use_simple_scraper", jget options "use_simple_scraper" (.bool false)),
            ("wait_for", jget options "wait_for" (.num 2000))]
          let scraper_config : JVal := .obj [
            ("scraper_id", .str scraper_id),
            ("name", .str name),
            ("description", (olookup body "description").getD .null),
            ("schema", schema),
            ("example_url", (olookup body "example_url").getD .null),
            ("webhook_url", (olookup body "webhook_url").getD .null),
            ("schedule", schedule),
            ("schedule_info", schedule_infoJ),
            ("options", scraper_options),
            ("created_at", .num now)]
          let e1 := Effect.setState "scrapers" scraper_id scraper_config
          let monRes : Option (Nat × List Effect) :=
            if truthy schedule_infoJ && truthy monitor_urls then
              match pyIter monitor_urls with
              | none => none
              | some urls => create_monitors_for_urls scraper_id urls schedule_infoJ cronNext now
            else some (0, [])
          match monRes with
          | none => (⟨500, .obj [("error", .str "Failed to create scraper")]⟩, [e1])
          | some (monitors_created, monEffs) =>
            match (if truthy monitor_urls then pyIter monitor_urls else some []) with
            | none => (⟨500, .obj [("error", .str "Failed to create scraper")]⟩, [e1] ++ monEffs)
            | some warmUrls =>
              let warm := warmUrls.foldl
                (fun (acc : Nat × List Effect) u =>
                  match u with
                  | .str s =>
                    let url := pyStrip s
                    if url = "" then acc
                    else
                      let job_id := jobIds acc.1
                      (acc.1 + 1, acc.2 ++ [
                        Effect.setState "jobs" job_id
                          (create_job_metadata job_id scraper_id url scraper_options now),
                        Effect.setState "job_payloads" job_id
                          (.obj [("schema", schema), ("scraper_id", .str scraper_id)]),
                        Effect.emitEvent "extraction.requested"
                          (.obj [("job_id", .str job_id), ("url", .str url),
                                 ("scraper_id", .str scraper_id), ("options", scraper_options)])
                          (some job_id)])
                  | _ => acc)
                (0, [])
              let respBase : Obj := [
                ("scraper_id", .str scraper_id), ("name", .str name),
                ("description", (olookup body "description").getD .null),
                ("endpoint", .str ("/api/scrape/" ++ scraper_id)),
                ("schema", schema), ("created_at", .num now)]
              let resp1 := if truthy schedule then objSet respBase "schedule" schedule else respBase
              let resp2 := if 0 < monitors_created then
                  objSet resp1 "monitors_created" (.num monitors_created) else resp1
              let resp3 := if 0 < warm.1 then
                  objSet resp2 "cache_warming_jobs" (.num warm.1) else resp2
              (⟨201, .obj resp3⟩, [e1] ++ monEffs ++ warm.2)
        | _ => (⟨500, .obj [("error", .str "Failed to create scraper")]⟩, [])
  | _ => (⟨500, .obj [("error", .str "Failed to create scraper")]⟩, [])

/-! ### steps/cron/run_scheduled_monitors_step.py -/

/-- All current values of a state group (`state.get_group`). -/
def Store.getGroup (st : Store) (g : String) : List JVal :=
  (((st.filter fun e => e.1 == g).map fun e => e.2.1).eraseDups).filterMap
    fun k => Store.get st g k

/-- The per-monitor body of the scheduler loop.  `now` is the tick's
`check_time`; `now2 ≥ now` is the instant `calculate_next_run` reads its
own clock.  Answers the effects performed plus a flag that is `true` when
the body raised (a raise aborts the remaining loop iterations but keeps
the effects already performed). -/
def process_monitor (st : Store) (monitor : JVal) (job_id : String)
    (cronNext : String → Int → Option Int) (now now2 : Int) : List Effect × Bool :=
  match monitor with
  | .obj _ =>
    if !truthy (jget monitor "active" (.bool false)) then ([], false)
    else
      let monitor_idJ := jget monitor "monitor_id" .null
      let scraper_idJ := jget monitor "scraper_id" .null
      let urlJ := jget monitor "url" .null
      let next_runJ := jget monitor "next_run" .null
      if !(truthy monitor_idJ && truthy scraper_idJ && truthy urlJ && truthy next_runJ) then
        ([], false)
      else
        match next_runJ with
        | .num next_run =>
          if now < next_run then ([], false)
          else
            match monitor_idJ, scraper_idJ, urlJ with
            | .str monitor_id, .str scraper_id, .str url =>
              match Store.get st "scrapers" scraper_id with
              | none => ([], false)
              | some sr =>
                if !truthy sr then ([], false)
                else
                  let scraper := inlineUnwrap sr
                  if !truthy scraper then ([], false)
                  else
                    let url_group_id := hash_url url
                    match jget scraper "options" (.obj []) with
                    | .obj sOpts =>
                      let merged_options : JVal :=
                        .obj (sOpts.foldl (fun acc kv => objSet acc kv.1 kv.2)
                          [("use_cache", .bool false)])
                      let e1 := Effect.setState "jobs" job_id
                        (create_job_metadata job_id scraper_id url merged_options now)
                      let schema := jget scraper "schema" .null
                      let e2 := Effect.setState "job_payloads" job_id
                        (.obj [("schema", schema), ("scraper_id", .str scraper_id)])
                      let e3 := Effect.emitEvent "extraction.requested"
                        (.obj [("job_id", .str job_id), ("url", .str url),
                               ("scraper_id", .str scraper_id), ("options", merged_options)])
                        (some url_group_id)
                      let schedule_info :=
                        if truthy (jget scraper "schedule_info" .null) then
                          jget scraper "schedule_info" .null
                        else .obj [
                          ("type", jget monitor "schedule_type" (.str "interval")),
                          ("interval_minutes", jget monitor "interval_minutes" .null),
                          ("cron", jget monitor "cron" .null)]
                      match calculate_next_run schedule_info cronNext now2 with
                      | none => ([e1, e2, e3], true)
                      | some nr =>
                        match jget monitor "run_count" (.num 0) with
                        | .num rc =>
                          let m1 := jSet (jSet (jSet (jSet monitor
                            "last_run" (.num now)) "next_run" (.num nr))
                            "run_count" (.num (rc + 1))) "last_job_id" (.str job_id)
                          ([e1, e2, e3, Effect.setState "monitors" monitor_id m1], false)
                        | _ => ([e1, e2, e3], true)
                    | _ => ([], true)
            | _, _, _ => ([], true)
        | _ => ([], false)
  | _ => ([], false)

/-- `handler` of steps/cron/run_scheduled_monitors_step.py: fold the loop
body over the monitor group, aborting (but keeping prior effects) on a
raise.  `jobIds i` stands in for the `uuid4`-based id minted while
processing the `i`-th monitor. -/
def run_scheduled_monitors_tick (st : Store) (jobIds : Nat → String)
    (cronNext : String → Int → Option Int) (now now2 : Int) : List Effect :=
  let monitors := Store.getGroup st "monitors"
  (monitors.foldl
    (fun (acc : List Effect × Bool × Nat) m =>
      match acc with
      | (effs, true, i) => (effs, true, i)
      | (effs, false, i) =>
        let r := process_monitor st m (jobIds i) cronNext now now2
        (effs ++ r.1, r.2, i + 1))
    ([], false, 0)).1

/-! ## Association-list lemmas -/

theorem olookup_objSet_self (fs : Obj) (k : String) (v : JVal) :
    olookup (objSet fs k v) k = some v := by
  induction fs with
  | nil => simp [objSet, olookup]
  | cons kv rest ih =>
    cases kv with
    | mk k' v' =>
      by_cases h : k' = k
      · simp [objSet, olookup, h]
      · simp [objSet, olookup, h, ih]

theorem olookup_objSet_ne (fs : Obj) {k k' : String} (v : JVal) (h : k' ≠ k) :
    olookup (objSet fs k v) k' = olookup fs k' := by
  induction fs with
  | nil => simp [objSet, olookup, Ne.symm h]
  | cons kv rest ih =>
    cases kv with
    | mk k'' v'' =>
      by_cases h2 : k'' = k
      · subst h2; simp [objSet, olookup, Ne.symm h]
      · by_cases h3 : k'' = k'
        · subst h3; simp [objSet, olookup, h2, h, olookup]
        · simp [objSet, olookup, h2, h3, ih]

theorem jget_obj_objSet_self (fs : Obj) (k : String) (v d : JVal) :
    jget (.obj (objSet fs k v)) k d = v := by
  simp [jget, olookup_objSet_self]

theorem jget_obj_objSet_ne (fs : Obj) {k k' : String} (v d : JVal) (h : k' ≠ k) :
    jget (.obj (objSet fs k v)) k' d = jget (.obj fs) k' d := by
  simp [jget, olookup_objSet_ne _ _ h]

/-! ## Sorted-key serialization is insensitive to dict insertion order -/

theorem dumpsFields_map (fs : List (String × JVal)) :
    dumpsFields fs = fs.map fun kv => (kv.1, dumpsV kv.2) := by
  induction fs with
  | nil => rfl
  | cons kv rest ih => cases kv; simp [dumpsFields, ih]

/-- Strict key order: `keyLe` plus distinct keys. -/
def keyStrict (a b : String × String) : Prop := keyLe a b ∧ a.1 ≠ b.1

theorem keyLe_antisymm_fst {a b : String × String} (h1 : keyLe a b) (h2 : keyLe b a) :
    a.1 = b.1 := by
  have hd : a.1.data = b.1.data := charListLe_antisymm h1 h2
  calc a.1 = ⟨a.1.data⟩ := rfl
    _ = ⟨b.1.data⟩ := congrArg String.mk hd
    _ = b.1 := rfl

instance : IsAntisymm (String × String) keyStrict :=
  ⟨fun a b h1 h2 => absurd (keyLe_antisymm_fst h1.1 h2.1) h1.2⟩

theorem pairwise_keyStrict_of_sorted {l : List (String × String)}
    (hs : l.Pairwise keyLe) (hn : (l.map Prod.fst).Nodup) : l.Pairwise keyStrict := by
  have hne : l.Pairwise fun a b => a.1 ≠ b.1 := (List.pairwise_map).mp hn
  exact hs.and hne

theorem insertionSort_eq_of_perm_of_nodup_keys {l1 l2 : List (String × String)}
    (hp : l1.Perm l2) (hn : (l1.map Prod.fst).Nodup) :
    List.insertionSort keyLe l1 = List.insertionSort keyLe l2 := by
  have hperm1 := List.perm_insertionSort keyLe l1
  have hperm2 := List.perm_insertionSort keyLe l2
  have hn1 : ((List.insertionSort keyLe l1).map Prod.fst).Nodup :=
    ((hperm1.map Prod.fst).nodup_iff).mpr hn
  have hn2 : ((List.insertionSort keyLe l2).map Prod.fst).Nodup :=
    ((hperm2.map Prod.fst).nodup_iff).mpr (((hp.map Prod.fst).nodup_iff).mp hn)
  have hs1 : (List.insertionSort keyLe l1).Pairwise keyStrict :=
    pairwise_keyStrict_of_sorted (List.sorted_insertionSort keyLe l1) hn1
  have hs2 : (List.insertionSort keyLe l2).Pairwise keyStrict :=
    pairwise_keyStrict_of_sorted (List.sorted_insertionSort keyLe l2) hn2
  exact List.eq_of_perm_of_sorted (hperm1.trans (hp.trans hperm2.symm)) hs1 hs2

theorem dumpsV_obj_perm {fs1 fs2 : List (String × JVal)} (hp : fs1.Perm fs2)
    (hn : (fs1.map Prod.fst).Nodup) : dumpsV (.obj fs1) = dumpsV (.obj fs2) := by
  have hsorted : List.insertionSort keyLe (dumpsFields fs1)
      = List.insertionSort keyLe (dumpsFields fs2) := by
    apply insertionSort_eq_of_perm_of_nodup_keys
    · rw [dumpsFields_map, dumpsFields_map]
      exact hp.map _
    · rw [dumpsFields_map, List.map_map]
      simpa using hn
  show "\x7b" ++ _ ++ "\x7d" = "\x7b" ++ _ ++ "\x7d"
  rw [hsorted]

/-! ## Claim theorems -/

set_option maxRecDepth 100000 in
/-- C1: the claim — and §7 of the spec — requires the Error handler to
check and leave a `completed` job alone, but the handler of
handle_extraction_error_step.py updates the `jobs` row with
`status: "failed"` unconditionally: processing an `extraction.failed`
event for a job whose row is already `completed` overwrites the terminal
status, a transition out of a terminal state. -/
theorem c1_error_handler_overwrites_completed_job :
    (Store.get
      (applyEffects
        [("jobs", "job_1", .obj [("job_id", .str "job_1"), ("status", .str "completed")])]
        (handle_extraction_error_handler
          [("jobs", "job_1", .obj [("job_id", .str "job_1"), ("status", .str "completed")])]
          [("job_id", .str "job_1"), ("error", .str "late failure"), ("stage", .str "storing")]
          50))
      "jobs" "job_1").map (fun j => jget j "status" .null) = some (.str "failed") := rfl

set_option maxRecDepth 100000 in
/-- C3 counterexample: on a state store whose `get` returns exactly the
value last written by `set` (the plain store model — no `{"data": ...}`
envelope), a successful `cache_extraction_result` followed by
`get_cached_extraction` for the same `(url, schema)` returns `None`, not
an entry carrying the data: the reader's unconditional `data` unwrap
strips the entry's own `data` field. -/
theorem c3_roundtrip_counterexample :
    get_cached_extraction
      (applyEffects []
        (cache_extraction_result "u" (.str "s") (.obj [("title", .str "x")]) .null .null .null 10).2)
      "u" (.str "s") = none := rfl

/-- A state backend that wraps every stored value in a `{"data": ...}`
envelope when it is read back. -/
def envelopeStore (st : Store) : Store :=
  st.map fun e => (e.1, e.2.1, JVal.obj [("data", e.2.2)])

/-- C3 (amended): on a state store whose `get` wraps the last-set value in
a `{"data": ...}` envelope, a successful `cache_extraction_result`
followed by `get_cached_extraction` for the same `(url, schema)` returns a
non-null entry whose `data` field equals the truthy `extraction_data`, and
which carries `model`, `metadata` and `cached_at`. -/
theorem c3_extraction_cache_roundtrip_enveloped (url : String)
    (schema data model scraper_id metadata : JVal) (now : Int) (hd : truthy data = true) :
    ∃ entry,
      get_cached_extraction
        (envelopeStore (applyEffects []
          (cache_extraction_result url schema data model scraper_id metadata now).2))
        url schema = some entry ∧
      jget entry "data" .null = data ∧
      jget entry "model" .null = model ∧
      jget entry "metadata" .null = (if truthy metadata then metadata else .obj []) ∧
      jget entry "cached_at" .null = .num now := by
  refine ⟨.obj [("data", data), ("url", .str url), ("schema", schema),
    ("scraper_id", scraper_id), ("model", model),
    ("metadata", if truthy metadata then metadata else .obj []),
    ("cached_at", .num now)], ?_, rfl, rfl, rfl, rfl⟩
  simp [get_cached_extraction, envelopeStore, applyEffects, applyEffect, Store.set,
    Store.get, cache_extraction_result, truthy, jget, olookup, hd]
  exact hd

set_option maxRecDepth 100000 in
/-- C3 witness for the amended round-trip. -/
theorem c3_roundtrip_enveloped_witness :
    ∃ entry,
      get_cached_extraction
        (envelopeStore (applyEffects []
          (cache_extraction_result "u" (.str "s") (.obj [("title", .str "x")])
            .null .null .null 10).2))
        "u" (.str "s") = some entry ∧
      jget entry "data" .null = .obj [("title", .str "x")] ∧
      jget entry "model" .null = .null ∧
      jget entry "metadata" .null = (if truthy .null then .null else .obj []) ∧
      jget entry "cached_at" .null = .num 10 :=
  c3_extraction_cache_roundtrip_enveloped "u" (.str "s") (.obj [("title", .str "x")])
    .null .null .null 10 rfl

/-- C4: two structured schemas that are equal as key-value maps (their
binding lists are permutations, with no duplicate keys) yield the same
extraction cache key for every url; and for every schema the key is the
first 16 hex characters of SHA-256 of `url + "|" + canonical(schema)`,
where `canonicalSchema` is sorted-key JSON for dicts and `str(schema)`
otherwise. -/
theorem c4_cache_key_order_insensitive (url : String) (fs1 fs2 : List (String × JVal))
    (hp : fs1.Perm fs2) (hn : (fs1.map Prod.fst).Nodup) :
    generate_extraction_cache_key url (.obj fs1) = generate_extraction_cache_key url (.obj fs2) ∧
    ∀ schema : JVal, generate_extraction_cache_key url schema =
      strTake (Sha256.sha256Hex (url ++ "|" ++ canonicalSchema schema)) 16 := by
  constructor
  · unfold generate_extraction_cache_key
    rw [show canonicalSchema (.obj fs1) = canonicalSchema (.obj fs2) from dumpsV_obj_perm hp hn]
  · intro _; rfl

set_option maxRecDepth 100000 in
/-- C4 witness, at the spec's own example `{"b":1,"a":2}` / `{"a":2,"b":1}`. -/
theorem c4_cache_key_witness :
    generate_extraction_cache_key "https://x/a" (.obj [("b", .num 1), ("a", .num 2)]) =
      generate_extraction_cache_key "https://x/a" (.obj [("a", .num 2), ("b", .num 1)]) ∧
    ∀ schema : JVal, generate_extraction_cache_key "https://x/a" schema =
      strTake (Sha256.sha256Hex ("https://x/a" ++ "|" ++ canonicalSchema schema)) 16 :=
  c4_cache_key_order_insensitive "https://x/a" _ _
    (List.Perm.swap ("a", JVal.num 2) ("b", JVal.num 1) []) (by decide)

end Web2API

namespace Web2API

theorem monitoring_step_effects {st : Store} {sid u : String} {si : JVal} {skip : Bool}
    {cronNext : String → Int → Option Int} {now : Int} {mi : JVal} {effsM : List Effect}
    (h : monitoring_step st sid u si skip cronNext now = some (mi, effsM)) :
    effsM = [] ∨ ∃ k v, effsM = [Effect.setState "monitors" k v] := by
  unfold monitoring_step auto_add_to_monitoring at h
  split at h
  · split at h
    · simp at h
      exact Or.inl h.2
    · dsimp only at h
      split at h
      · exact absurd h (by simp)
      · simp at h
        exact Or.inr ⟨_, _, h.2.symm⟩
  · simp at h
    exact Or.inl h.2

/-- C2: a `run_scraper` call with a non-empty url, an existing scraper,
`options.async` false and `use_cache` true or defaulted, on an extraction
cache hit for `(url, scraper.schema)`, returns 200 with body status
`completed`, data equal to the cached entry's data, `cached=true`,
`cache_type="extraction"`, and emits no events on the bus. -/
theorem c2_fast_path_cache_hit
    (st : Store) (body : Obj) (sid u job_id : String) (optFs scrFs sOptFs : Obj)
    (cronNext : String → Int → Option Int) (now : Int) (pollResult : Option JVal)
    (ce mi : JVal) (effsM : List Effect)
    (hsid : sid ≠ "")
    (hurl : olookup body "url" = some (.str u))
    (hstrip : pyStrip u = u) (hne : u ≠ "")
    (hopts : (olookup body "options").getD (.obj []) = .obj optFs)
    (hasync : truthy (jget (.obj optFs) "async" (.bool false)) = false)
    (hucache : truthy (jget (.obj optFs) "use_cache" (.bool true)) = true)
    (hscraper : unwrap_state_data (Store.get st "scrapers" sid) .null = .obj scrFs)
    (hscrT : truthy (JVal.obj scrFs) = true)
    (hsopts : jget (.obj scrFs) "options" (.obj []) = .obj sOptFs)
    (hhit : get_cached_extraction st u (jget (.obj scrFs) "schema" .null) = some ce)
    (hmon : monitoring_step st sid u (jget (.obj scrFs) "schedule_info" .null)
      (truthy (jget (.obj optFs) "skip_monitoring" (.bool false))) cronNext now
      = some (mi, effsM)) :
    (run_scraper_handler st (some sid) body job_id cronNext now pollResult).1.status = 200 ∧
    jget (run_scraper_handler st (some sid) body job_id cronNext now pollResult).1.body
      "status" .null = .str "completed" ∧
    jget (run_scraper_handler st (some sid) body job_id cronNext now pollResult).1.body
      "data" .null = jget ce "data" (.obj []) ∧
    jget (run_scraper_handler st (some sid) body job_id cronNext now pollResult).1.body
      "cached" .null = .bool true ∧
    jget (run_scraper_handler st (some sid) body job_id cronNext now pollResult).1.body
      "cache_type" .null = .str "extraction" ∧
    emittedEvents (run_scraper_handler st (some sid) body job_id cronNext now pollResult).2
      = [] := by
  simp only [jget] at hasync hucache hsopts hhit hmon
  have hmain : run_scraper_handler st (some sid) body job_id cronNext now pollResult =
      (⟨200, .obj [
        ("job_id", .str job_id), ("scraper_id", .str sid), ("status", .str "completed"),
        ("data", jget ce "data" (.obj [])), ("url", .str u), ("cached", .bool true),
        ("cache_type", .str "extraction"), ("cached_at", jget ce "cached_at" .null),
        ("monitoring", jget mi "monitoring" (.bool false)),
        ("monitor_id", jget mi "monitor_id" .null),
        ("next_run", jget mi "next_run" .null)]⟩,
       Effect.setState "jobs" job_id (create_job_metadata job_id sid u
         (.obj [("use_cache", jget (.obj optFs) "use_cache" (.bool true)),
                ("wait_for", jget (.obj optFs) "wait_for" (jget (.obj sOptFs) "wait_for" (.num 2000))),
                ("timeout", jget (.obj optFs) "timeout" (jget (.obj sOptFs) "timeout" (.num 30000))),
                ("use_simple_scraper", jget (.obj optFs) "use_simple_scraper"
                  (jget (.obj sOptFs) "use_simple_scraper" (.bool false)))]) now) :: effsM) := by
    simp [run_scraper_handler, hurl, hstrip, hne, hopts, hasync, hucache, hscraper, hscrT,
      hsopts, hhit, hmon, hsid, jget, olookup]
  rw [hmain]
  refine ⟨rfl, ?_, ?_, ?_, ?_, ?_⟩
  · simp [jget, olookup]
  · simp [jget, olookup]
  · simp [jget, olookup]
  · simp [jget, olookup]
  · rcases monitoring_step_effects hmon with h | ⟨k, v, h⟩ <;>
      simp [h, emittedEvents, Effect.isEmit]

end Web2API

namespace Web2API

theorem Store.get_set_ne (st : Store) (g k : String) (v : JVal) (g' k' : String)
    (h : g ≠ g') : Store.get (Store.set st g k v) g' k' = Store.get st g' k' := by
  simp [Store.set, Store.get, h]

/-- A tiny deployment used by witnesses: one scraper and one extraction
cache row for `https://x/a` (wrapped in the backend's data envelope, the
form the reader unwraps). -/
def sampleSchema : JVal := .obj [("type", .str "object")]

def sampleScraperRow : JVal :=
  .obj [("scraper_id", .str "scr_1"), ("name", .str "s"),
        ("schema", sampleSchema), ("options", .obj [])]

def sampleCacheEntry : JVal :=
  .obj [("data", .obj [("title", .str "Hello")]), ("cached_at", .num 5)]

def sampleStore : Store :=
  [("scrapers", "scr_1", sampleScraperRow),
   ("extraction_cache", generate_extraction_cache_key "https://x/a" sampleSchema,
    .obj [("data", sampleCacheEntry)])]

/-- C10: on the extraction-cache fast path (sync, `use_cache` true, cache
hit) the `jobs[job_id]` row is written exactly once, with status `queued`
and no `completed_at`, and stays that way in the post-state; no
`extractions[job_id]` row, no `job_payloads` row, no progress-stream write
and no event is produced for the job — even though the HTTP response body
reports status `completed`. -/
theorem c10_fast_path_frame
    (st : Store) (body : Obj) (sid u job_id : String) (optFs scrFs sOptFs : Obj)
    (cronNext : String → Int → Option Int) (now : Int) (pollResult : Option JVal)
    (ce mi : JVal) (effsM : List Effect)
    (hsid : sid ≠ "")
    (hurl : olookup body "url" = some (.str u))
    (hstrip : pyStrip u = u) (hne : u ≠ "")
    (hopts : (olookup body "options").getD (.obj []) = .obj optFs)
    (hasync : truthy (jget (.obj optFs) "async" (.bool false)) = false)
    (hucache : truthy (jget (.obj optFs) "use_cache" (.bool true)) = true)
    (hscraper : unwrap_state_data (Store.get st "scrapers" sid) .null = .obj scrFs)
    (hscrT : truthy (JVal.obj scrFs) = true)
    (hsopts : jget (.obj scrFs) "options" (.obj []) = .obj sOptFs)
    (hhit : get_cached_extraction st u (jget (.obj scrFs) "schema" .null) = some ce)
    (hmon : monitoring_step st sid u (jget (.obj scrFs) "schedule_info" .null)
      (truthy (jget (.obj optFs) "skip_monitoring" (.bool false))) cronNext now
      = some (mi, effsM))
    (hfreshE : Store.get st "extractions" job_id = none) :
    (∃ jm,
      (run_scraper_handler st (some sid) body job_id cronNext now pollResult).2.filter
        (Effect.isSetIn "jobs") = [Effect.setState "jobs" job_id jm] ∧
      jget jm "status" .null = .str "queued" ∧
      jget jm "completed_at" .null = .null ∧
      Store.get (applyEffects st
        (run_scraper_handler st (some sid) body job_id cronNext now pollResult).2)
        "jobs" job_id = some jm) ∧
    (run_scraper_handler st (some sid) body job_id cronNext now pollResult).2.filter
      (Effect.isSetIn "extractions") = [] ∧
    (run_scraper_handler st (some sid) body job_id cronNext now pollResult).2.filter
      (Effect.isSetIn "job_payloads") = [] ∧
    progressWrites (run_scraper_handler st (some sid) body job_id cronNext now pollResult).2
      = [] ∧
    emittedEvents (run_scraper_handler st (some sid) body job_id cronNext now pollResult).2
      = [] ∧
    Store.get (applyEffects st
      (run_scraper_handler st (some sid) body job_id cronNext now pollResult).2)
      "extractions" job_id = none ∧
    jget (run_scraper_handler st (some sid) body job_id cronNext now pollResult).1.body
      "status" .null = .str "completed" := by
  simp only [jget] at hasync hucache hsopts hhit hmon
  have hmain : run_scraper_handler st (some sid) body job_id cronNext now pollResult =
      (⟨200, .obj [
        ("job_id", .str job_id), ("scraper_id", .str sid), ("status", .str "completed"),
        ("data", jget ce "data" (.obj [])), ("url", .str u), ("cached", .bool true),
        ("cache_type", .str "extraction"), ("cached_at", jget ce "cached_at" .null),
        ("monitoring", jget mi "monitoring" (.bool false)),
        ("monitor_id", jget mi "monitor_id" .null),
        ("next_run", jget mi "next_run" .null)]⟩,
       Effect.setState "jobs" job_id (create_job_metadata job_id sid u
         (.obj [("use_cache", jget (.obj optFs) "use_cache" (.bool true)),
                ("wait_for", jget (.obj optFs) "wait_for" (jget (.obj sOptFs) "wait_for" (.num 2000))),
                ("timeout", jget (.obj optFs) "timeout" (jget (.obj sOptFs) "timeout" (.num 30000))),
                ("use_simple_scraper", jget (.obj optFs) "use_simple_scraper"
                  (jget (.obj sOptFs) "use_simple_scraper" (.bool false)))]) now) :: effsM) := by
    simp [run_scraper_handler, hurl, hstrip, hne, hopts, hasync, hucache, hscraper, hscrT,
      hsopts, hhit, hmon, hsid, jget, olookup]
  rw [hmain]
  rcases monitoring_step_effects hmon with h | ⟨k, v, h⟩ <;> subst h
  · refine ⟨⟨create_job_metadata job_id sid u
         (.obj [("use_cache", jget (.obj optFs) "use_cache" (.bool true)),
                ("wait_for", jget (.obj optFs) "wait_for" (jget (.obj sOptFs) "wait_for" (.num 2000))),
                ("timeout", jget (.obj optFs) "timeout" (jget (.obj sOptFs) "timeout" (.num 30000))),
                ("use_simple_scraper", jget (.obj optFs) "use_simple_scraper"
                  (jget (.obj sOptFs) "use_simple_scraper" (.bool false)))]) now, ?_, ?_, ?_, ?_⟩, ?_, ?_, ?_, ?_, ?_, ?_⟩
    · simp [Effect.isSetIn]
    · simp [create_job_metadata, jget, olookup]
    · simp [create_job_metadata, jget, olookup]
    · simp [applyEffects, applyEffect, Store.set, Store.get]
    · simp [Effect.isSetIn]
    · simp [Effect.isSetIn]
    · simp [progressWrites, Effect.isProgress]
    · simp [emittedEvents, Effect.isEmit]
    · simpa [applyEffects, applyEffect, Store.set, Store.get] using hfreshE
    · simp [jget, olookup]
  · refine ⟨⟨create_job_metadata job_id sid u
         (.obj [("use_cache", jget (.obj optFs) "use_cache" (.bool true)),
                ("wait_for", jget (.obj optFs) "wait_for" (jget (.obj sOptFs) "wait_for" (.num 2000))),
                ("timeout", jget (.obj optFs) "timeout" (jget (.obj sOptFs) "timeout" (.num 30000))),
                ("use_simple_scraper", jget (.obj optFs) "use_simple_scraper"
                  (jget (.obj sOptFs) "use_simple_scraper" (.bool false)))]) now, ?_, ?_, ?_, ?_⟩, ?_, ?_, ?_, ?_, ?_, ?_⟩
    · simp [Effect.isSetIn]
    · simp [create_job_metadata, jget, olookup]
    · simp [create_job_metadata, jget, olookup]
    · simp [applyEffects, applyEffect, Store.set, Store.get]
    · simp [Effect.isSetIn]
    · simp [Effect.isSetIn]
    · simp [progressWrites, Effect.isProgress]
    · simp [emittedEvents, Effect.isEmit]
    · simpa [applyEffects, applyEffect, Store.set, Store.get] using hfreshE
    · simp [jget, olookup]

end Web2API

namespace Web2API

set_option maxRecDepth 1000000 in
/-- C2 witness at the sample deployment. -/
theorem c2_fast_path_witness :
    (run_scraper_handler sampleStore (some "scr_1") [("url", .str "https://x/a")]
      "job_9" (fun _ _ => none) 7 none).1.status = 200 ∧
    jget (run_scraper_handler sampleStore (some "scr_1") [("url", .str "https://x/a")]
      "job_9" (fun _ _ => none) 7 none).1.body "status" .null = .str "completed" ∧
    jget (run_scraper_handler sampleStore (some "scr_1") [("url", .str "https://x/a")]
      "job_9" (fun _ _ => none) 7 none).1.body "data" .null
      = jget sampleCacheEntry "data" (.obj []) ∧
    jget (run_scraper_handler sampleStore (some "scr_1") [("url", .str "https://x/a")]
      "job_9" (fun _ _ => none) 7 none).1.body "cached" .null = .bool true ∧
    jget (run_scraper_handler sampleStore (some "scr_1") [("url", .str "https://x/a")]
      "job_9" (fun _ _ => none) 7 none).1.body "cache_type" .null = .str "extraction" ∧
    emittedEvents (run_scraper_handler sampleStore (some "scr_1") [("url", .str "https://x/a")]
      "job_9" (fun _ _ => none) 7 none).2 = [] :=
  c2_fast_path_cache_hit sampleStore [("url", .str "https://x/a")] "scr_1" "https://x/a"
    "job_9" []
    [("scraper_id", .str "scr_1"), ("name", .str "s"), ("schema", sampleSchema), ("options", .obj [])]
    [] (fun _ _ => none) 7 none sampleCacheEntry
    (.obj [("monitoring", .bool false), ("monitor_id", .null), ("next_run", .null)]) []
    (by decide) rfl rfl (by decide) rfl rfl rfl rfl rfl rfl rfl rfl

end Web2API

namespace Web2API

set_option maxRecDepth 1000000 in
/-- C10 witness at the sample deployment. -/
theorem c10_fast_path_frame_witness :
    (∃ jm,
      (run_scraper_handler sampleStore (some "scr_1") [("url", .str "https://x/a")]
        "job_9" (fun _ _ => none) 7 none).2.filter
        (Effect.isSetIn "jobs") = [Effect.setState "jobs" "job_9" jm] ∧
      jget jm "status" .null = .str "queued" ∧
      jget jm "completed_at" .null = .null ∧
      Store.get (applyEffects sampleStore
        (run_scraper_handler sampleStore (some "scr_1") [("url", .str "https://x/a")]
          "job_9" (fun _ _ => none) 7 none).2)
        "jobs" "job_9" = some jm) ∧
    (run_scraper_handler sampleStore (some "scr_1") [("url", .str "https://x/a")]
      "job_9" (fun _ _ => none) 7 none).2.filter (Effect.isSetIn "extractions") = [] ∧
    (run_scraper_handler sampleStore (some "scr_1") [("url", .str "https://x/a")]
      "job_9" (fun _ _ => none) 7 none).2.filter (Effect.isSetIn "job_payloads") = [] ∧
    progressWrites (run_scraper_handler sampleStore (some "scr_1") [("url", .str "https://x/a")]
      "job_9" (fun _ _ => none) 7 none).2 = [] ∧
    emittedEvents (run_scraper_handler sampleStore (some "scr_1") [("url", .str "https://x/a")]
      "job_9" (fun _ _ => none) 7 none).2 = [] ∧
    Store.get (applyEffects sampleStore
      (run_scraper_handler sampleStore (some "scr_1") [("url", .str "https://x/a")]
        "job_9" (fun _ _ => none) 7 none).2)
      "extractions" "job_9" = none ∧
    jget (run_scraper_handler sampleStore (some "scr_1") [("url", .str "https://x/a")]
      "job_9" (fun _ _ => none) 7 none).1.body "status" .null = .str "completed" :=
  c10_fast_path_frame sampleStore [("url", .str "https://x/a")] "scr_1" "https://x/a"
    "job_9" []
    [("scraper_id", .str "scr_1"), ("name", .str "s"), ("schema", sampleSchema), ("options", .obj [])]
    [] (fun _ _ => none) 7 none sampleCacheEntry
    (.obj [("monitoring", .bool false), ("monitor_id", .null), ("next_run", .null)]) []
    (by decide) rfl rfl (by decide) rfl rfl rfl rfl rfl rfl rfl rfl rfl

end Web2API

namespace Web2API

theorem beqJ_str_iff (x : JVal) (s : String) : beqJ x (.str s) = true ↔ x = .str s := by
  cases x <;> simp [beqJ]

theorem Store.get_set_self (st : Store) (g k : String) (v : JVal) :
    Store.get (Store.set st g k v) g k = some v := by
  simp [Store.set, Store.get]

theorem Store.get_del_ne (st : Store) (g k g' k' : String) (h : g ≠ g') :
    Store.get (Store.del st g k) g' k' = Store.get st g' k' := by
  induction st with
  | nil => rfl
  | cons e rest ih =>
    obtain ⟨eg, ek, ev⟩ := e
    simp only [Store.del] at ih ⊢
    by_cases hd : (eg == g && ek == k) = true
    · have hgg : eg = g := eq_of_beq ((Bool.and_eq_true _ _).mp hd).1
      have hek : ek = k := eq_of_beq ((Bool.and_eq_true _ _).mp hd).2
      subst hgg; subst hek
      simp [List.filter_cons, Store.get, h]
      simpa using ih
    · have hd' : (eg == g && ek == k) = false := by simpa using hd
      simp only [List.filter_cons, hd', Bool.not_false, if_true]
      simp only [Store.get]
      split
      · rfl
      · exact ih

theorem store_jobs_update_shape (st : Store) (job_id : String) (url scraper_idJ : JVal)
    (now : Int) :
    store_jobs_update st job_id url scraper_idJ now = [] ∨
    ∃ v, store_jobs_update st job_id url scraper_idJ now
      = [Effect.setState "jobs" job_id v] := by
  unfold store_jobs_update
  dsimp only
  split
  · exact Or.inr ⟨_, rfl⟩
  · exact Or.inl rfl

end Web2API

namespace Web2API

/-- C5: for an `extraction.completed` event (with a truthy url) that the
Store stage processes to a completed `extractions[job_id]` row (payload
present, data a truthy dict, validation passing when the schema is a
dict), an extraction-cache write is attempted if and only if not
(`cached` truthy and `cache_type = "extraction"`); and in that case the
post-state holds the `extraction_cache` row for `(url, schema)` with the
extracted data. -/
theorem c5_store_cache_write_iff
    (st : Store) (input : Obj) (validateFn : JVal → JVal → Bool × List String) (now : Int)
    (job_id : String) (payFs : Obj)
    (hjid : olookup input "job_id" = some (.str job_id))
    (hjne : job_id ≠ "") (hjnu : job_id ≠ "unknown")
    (hpay : (Store.get st "extraction_payloads" job_id).getD .null = .obj payFs)
    (hpayT : truthy (.obj payFs) = true)
    (hdataT : truthy (jget (.obj payFs) "data" .null) = true)
    (hdataObj : (jget (.obj payFs) "data" .null).isObj = true)
    (hurlT : truthy ((olookup input "url").getD .null) = true)
    (hschT : truthy (jget (.obj payFs) "schema" .null) = true)
    (hvalid : ∀ hso : (jget (.obj payFs) "schema" .null).isObj = true,
      (validateFn (jget (.obj payFs) "data" .null) (jget (.obj payFs) "schema" .null)).1 = true) :
    ((store_results_handler st input validateFn now).filter (Effect.isSetIn "extraction_cache") ≠ []
      ↔ ¬ (truthy ((olookup input "cached").getD (.bool false)) = true ∧
           (olookup input "cache_type").getD .null = .str "extraction")) ∧
    (∃ er, (store_results_handler st input validateFn now).filter (Effect.isSetIn "extractions")
        = [Effect.setState "extractions" job_id er] ∧ jget er "status" .null = .str "completed") ∧
    (¬ (truthy ((olookup input "cached").getD (.bool false)) = true ∧
        (olookup input "cache_type").getD .null = .str "extraction") →
      ∃ entry, Store.get (applyEffects st (store_results_handler st input validateFn now))
          "extraction_cache"
          (generate_extraction_cache_key (pyStr ((olookup input "url").getD .null))
            (jget (.obj payFs) "schema" .null)) = some entry ∧
        jget entry "data" .null = jget (.obj payFs) "data" .null) := by
  simp only [jget] at hdataT hdataObj hschT hvalid
  have hbiff : (beqJ ((olookup input "cache_type").getD .null) (.str "extraction") = true)
      ↔ (olookup input "cache_type").getD .null = .str "extraction" :=
    beqJ_str_iff _ "extraction"
  have hbool : ((!truthy ((olookup input "cached").getD (.bool false))
        || !beqJ ((olookup input "cache_type").getD .null) (.str "extraction")) = true)
      ↔ ¬ (truthy ((olookup input "cached").getD (.bool false)) = true ∧
           (olookup input "cache_type").getD .null = .str "extraction") := by
    constructor
    · intro h hand
      rw [hand.1, hbiff.mpr hand.2] at h
      simp at h
    · intro h
      by_cases h1 : truthy ((olookup input "cached").getD (.bool false)) = true
      · have h2 : beqJ ((olookup input "cache_type").getD .null) (.str "extraction") = false := by
          by_cases hh : beqJ ((olookup input "cache_type").getD .null) (.str "extraction") = true
          · exact absurd ⟨h1, hbiff.mp hh⟩ h
          · simpa using hh
        simp [h1, h2]
      · have h1' : truthy ((olookup input "cached").getD (.bool false)) = false := by
          simpa using h1
        simp [h1']
  have hjT : truthy (.str job_id) = true := by simp [truthy, hjne]
  have hjB : beqJ (.str job_id) (.str "unknown") = false := by simp [beqJ, hjnu]
  have hmain : store_results_handler st input validateFn now =
      [Effect.progress job_id "validating" 90 "Validating results...",
       Effect.setState "extractions" job_id (.obj [
         ("job_id", .str job_id), ("status", .str "completed"),
         ("data", (olookup payFs "data").getD .null),
         ("url", (olookup input "url").getD .null),
         ("schema", (olookup payFs "schema").getD .null),
         ("scraper_id", (olookup input "scraper_id").getD .null),
         ("completed_at", .num now),
         ("model", (olookup payFs "model").getD .null),
         ("usage", (olookup payFs "usage").getD (.obj [])),
         ("cached", (olookup input "cached").getD (.bool false)),
         ("metadata", (olookup payFs "metadata").getD (.obj []))])] ++
      store_jobs_update st job_id ((olookup input "url").getD .null)
        ((olookup input "scraper_id").getD .null) now ++
      (if !truthy ((olookup input "cached").getD (.bool false))
          || !beqJ ((olookup input "cache_type").getD .null) (.str "extraction") then
        [Effect.setState "extraction_cache"
          (generate_extraction_cache_key (pyStr ((olookup input "url").getD .null))
            ((olookup payFs "schema").getD .null))
          (.obj [
            ("data", (olookup payFs "data").getD .null),
            ("url", .str (pyStr ((olookup input "url").getD .null))),
            ("schema", (olookup payFs "schema").getD .null),
            ("scraper_id", (olookup input "scraper_id").getD .null),
            ("model", (olookup payFs "model").getD .null),
            ("metadata", if truthy ((olookup payFs "metadata").getD (.obj []))
              then (olookup payFs "metadata").getD (.obj []) else .obj []),
            ("cached_at", .num now)])]
      else []) ++
      [Effect.delState "extraction_payloads" job_id,
       Effect.delState "job_payloads" job_id,
       Effect.progress job_id "completed" 100 "Extraction completed",
       Effect.emitEvent "results.stored"
         (.obj [("job_id", .str job_id), ("url", (olookup input "url").getD .null),
                ("scraper_id", (olookup input "scraper_id").getD .null),
                ("completed_at", .num now),
                ("cached", (olookup input "cached").getD (.bool false))]) none] := by
    by_cases hso : ((olookup payFs "schema").getD .null).isObj = true
    · simp [store_results_handler, hjid, hjT, hjB, hpay, hpayT, hdataT, hdataObj, hurlT,
        hschT, hso, hvalid hso, cache_extraction_result, jget]
    · simp [store_results_handler, hjid, hjT, hjB, hpay, hpayT, hdataT, hdataObj, hurlT,
        hschT, hso, cache_extraction_result, jget]
  rw [hmain]
  rcases store_jobs_update_shape st job_id ((olookup input "url").getD .null)
    ((olookup input "scraper_id").getD .null) now with hJ | ⟨jv, hJ⟩ <;> rw [hJ] <;>
  rcases hcb : (!truthy ((olookup input "cached").getD (.bool false))
      || !beqJ ((olookup input "cache_type").getD .null) (.str "extraction")) with _ | _
  · refine ⟨?_, ⟨.obj [("job_id", .str job_id), ("status", .str "completed"),
        ("data", (olookup payFs "data").getD .null), ("url", (olookup input "url").getD .null),
        ("schema", (olookup payFs "schema").getD .null),
        ("scraper_id", (olookup input "scraper_id").getD .null), ("completed_at", .num now),
        ("model", (olookup payFs "model").getD .null),
        ("usage", (olookup payFs "usage").getD (.obj [])),
        ("cached", (olookup input "cached").getD (.bool false)),
        ("metadata", (olookup payFs "metadata").getD (.obj []))], ?_, ?_⟩, ?_⟩
    · simp [Effect.isSetIn, ← hbool, hcb]
    · simp [Effect.isSetIn]
    · simp [jget, olookup]
    · intro hnc
      exact absurd (hbool.mpr hnc) (by simp [hcb])
  · refine ⟨?_, ⟨.obj [("job_id", .str job_id), ("status", .str "completed"),
        ("data", (olookup payFs "data").getD .null), ("url", (olookup input "url").getD .null),
        ("schema", (olookup payFs "schema").getD .null),
        ("scraper_id", (olookup input "scraper_id").getD .null), ("completed_at", .num now),
        ("model", (olookup payFs "model").getD .null),
        ("usage", (olookup payFs "usage").getD (.obj [])),
        ("cached", (olookup input "cached").getD (.bool false)),
        ("metadata", (olookup payFs "metadata").getD (.obj []))], ?_, ?_⟩, ?_⟩
    · simp [Effect.isSetIn, ← hbool, hcb]
    · simp [Effect.isSetIn]
    · simp [jget, olookup]
    · intro hnc
      refine ⟨.obj [("data", (olookup payFs "data").getD .null),
          ("url", .str (pyStr ((olookup input "url").getD .null))),
          ("schema", (olookup payFs "schema").getD .null),
          ("scraper_id", (olookup input "scraper_id").getD .null),
          ("model", (olookup payFs "model").getD .null),
          ("metadata", if truthy ((olookup payFs "metadata").getD (.obj []))
            then (olookup payFs "metadata").getD (.obj []) else .obj []),
          ("cached_at", .num now)], ?_, ?_⟩
      · simp [hcb, applyEffects, applyEffect, Store.get_del_ne, Store.get_set_self, jget]
      · simp [jget, olookup]
  · refine ⟨?_, ⟨.obj [("job_id", .str job_id), ("status", .str "completed"),
        ("data", (olookup payFs "data").getD .null), ("url", (olookup input "url").getD .null),
        ("schema", (olookup payFs "schema").getD .null),
        ("scraper_id", (olookup input "scraper_id").getD .null), ("completed_at", .num now),
        ("model", (olookup payFs "model").getD .null),
        ("usage", (olookup payFs "usage").getD (.obj [])),
        ("cached", (olookup input "cached").getD (.bool false)),
        ("metadata", (olookup payFs "metadata").getD (.obj []))], ?_, ?_⟩, ?_⟩
    · simp [Effect.isSetIn, ← hbool, hcb]
    · simp [Effect.isSetIn]
    · simp [jget, olookup]
    · intro hnc
      exact absurd (hbool.mpr hnc) (by simp [hcb])
  · refine ⟨?_, ⟨.obj [("job_id", .str job_id), ("status", .str "completed"),
        ("data", (olookup payFs "data").getD .null), ("url", (olookup input "url").getD .null),
        ("schema", (olookup payFs "schema").getD .null),
        ("scraper_id", (olookup input "scraper_id").getD .null), ("completed_at", .num now),
        ("model", (olookup payFs "model").getD .null),
        ("usage", (olookup payFs "usage").getD (.obj [])),
        ("cached", (olookup input "cached").getD (.bool false)),
        ("metadata", (olookup payFs "metadata").getD (.obj []))], ?_, ?_⟩, ?_⟩
    · simp [Effect.isSetIn, ← hbool, hcb]
    · simp [Effect.isSetIn]
    · simp [jget, olookup]
    · intro hnc
      refine ⟨.obj [("data", (olookup payFs "data").getD .null),
          ("url", .str (pyStr ((olookup input "url").getD .null))),
          ("schema", (olookup payFs "schema").getD .null),
          ("scraper_id", (olookup input "scraper_id").getD .null),
          ("model", (olookup payFs "model").getD .null),
          ("metadata", if truthy ((olookup payFs "metadata").getD (.obj []))
            then (olookup payFs "metadata").getD (.obj []) else .obj []),
          ("cached_at", .num now)], ?_, ?_⟩
      · simp [hcb, applyEffects, applyEffect, Store.get_del_ne, Store.get_set_self, jget]
      · simp [jget, olookup]

end Web2API

namespace Web2API

/-- The extraction payload used by the C5 witness. -/
def samplePayload : JVal :=
  .obj [("data", .obj [("title", .str "Hello")]), ("schema", sampleSchema),
        ("model", .str "gpt-4o-mini")]

set_option maxRecDepth 1000000 in
/-- C5 witness: a non-cache-served completion writes the cache row. -/
theorem c5_store_cache_write_witness :
    ((store_results_handler [("extraction_payloads", "job_7", samplePayload)]
        [("job_id", .str "job_7"), ("url", .str "https://x/a"), ("scraper_id", .str "scr_1")]
        (fun _ _ => (true, [])) 20).filter (Effect.isSetIn "extraction_cache") ≠ []
      ↔ ¬ (truthy ((olookup [("job_id", JVal.str "job_7"), ("url", JVal.str "https://x/a"),
            ("scraper_id", JVal.str "scr_1")] "cached").getD (.bool false)) = true ∧
           (olookup [("job_id", JVal.str "job_7"), ("url", JVal.str "https://x/a"),
            ("scraper_id", JVal.str "scr_1")] "cache_type").getD .null = .str "extraction")) ∧
    (∃ er, (store_results_handler [("extraction_payloads", "job_7", samplePayload)]
        [("job_id", .str "job_7"), ("url", .str "https://x/a"), ("scraper_id", .str "scr_1")]
        (fun _ _ => (true, [])) 20).filter (Effect.isSetIn "extractions")
        = [Effect.setState "extractions" "job_7" er] ∧ jget er "status" .null = .str "completed") ∧
    (¬ (truthy ((olookup [("job_id", JVal.str "job_7"), ("url", JVal.str "https://x/a"),
          ("scraper_id", JVal.str "scr_1")] "cached").getD (.bool false)) = true ∧
        (olookup [("job_id", JVal.str "job_7"), ("url", JVal.str "https://x/a"),
          ("scraper_id", JVal.str "scr_1")] "cache_type").getD .null = .str "extraction") →
      ∃ entry, Store.get (applyEffects [("extraction_payloads", "job_7", samplePayload)]
          (store_results_handler [("extraction_payloads", "job_7", samplePayload)]
            [("job_id", .str "job_7"), ("url", .str "https://x/a"), ("scraper_id", .str "scr_1")]
            (fun _ _ => (true, [])) 20))
          "extraction_cache"
          (generate_extraction_cache_key
            (pyStr ((olookup [("job_id", JVal.str "job_7"), ("url", JVal.str "https://x/a"),
              ("scraper_id", JVal.str "scr_1")] "url").getD .null))
            (jget (.obj [("data", .obj [("title", .str "Hello")]), ("schema", sampleSchema),
              ("model", .str "gpt-4o-mini")]) "schema" .null)) = some entry ∧
        jget entry "data" .null = jget (.obj [("data", .obj [("title", .str "Hello")]),
          ("schema", sampleSchema), ("model", .str "gpt-4o-mini")]) "data" .null) :=
  c5_store_cache_write_iff
    [("extraction_payloads", "job_7", samplePayload)]
    [("job_id", .str "job_7"), ("url", .str "https://x/a"), ("scraper_id", .str "scr_1")]
    (fun _ _ => (true, [])) 20 "job_7"
    [("data", .obj [("title", .str "Hello")]), ("schema", sampleSchema),
     ("model", .str "gpt-4o-mini")]
    rfl (by decide) (by decide) rfl rfl rfl rfl rfl rfl (fun _ => rfl)

set_option maxRecDepth 1000000 in
/-- C6: in the Store stage, feeding a structured (dict) schema whose data
fails draft-2020-12 validation (modelled by the injected validator
returning four formatted errors), the stage emits `extraction.failed` with
`stage="storing"` and an error string `Validation failed:` plus the first
three errors, and writes nothing (no completed `extractions` row).  The
emitted event carries no `validation_errors` field, so when the Error
handler consumes it the resulting failed `extractions[job_id]` row has
`validation_errors = null` — not the non-empty list the claim requires. -/
theorem c6_validation_failure_drops_validation_errors :
    store_results_handler
      [("extraction_payloads", "job_6",
        .obj [("data", .obj [("title", .num 123)]), ("schema", sampleSchema)]),
       ("jobs", "job_6", .obj [("job_id", .str "job_6"), ("status", .str "extracting")])]
      [("job_id", .str "job_6"), ("url", .str "https://x/a")]
      (fun _ _ => (false,
        ["title: 123 is not of type string (expected string, got int)",
         "Root level: name is a required property (missing required field)",
         "price: abc is not of type number (expected number, got str)",
         "date: 5 is not of type string (expected string, got int)"])) 20 =
      [Effect.progress "job_6" "validating" 90 "Validating results...",
       Effect.emitEvent "extraction.failed"
         (.obj [("job_id", .str "job_6"),
                ("error", .str ("Validation failed: title: 123 is not of type string (expected string, got int), Root level: name is a required property (missing required field), price: abc is not of type number (expected number, got str)")),
                ("stage", .str "storing"), ("url", .str "https://x/a")]) none] ∧
    (Store.get
      (applyEffects
        [("jobs", "job_6", .obj [("job_id", .str "job_6"), ("status", .str "extracting")])]
        (handle_extraction_error_handler
          [("jobs", "job_6", .obj [("job_id", .str "job_6"), ("status", .str "extracting")])]
          [("job_id", .str "job_6"),
           ("error", .str ("Validation failed: title: 123 is not of type string (expected string, got int), Root level: name is a required property (missing required field), price: abc is not of type number (expected number, got str)")),
           ("stage", .str "storing"), ("url", .str "https://x/a")] 21))
      "extractions" "job_6").map (fun r => jget r "validation_errors" (.str "missing"))
      = some .null :=
  ⟨rfl, rfl⟩

end Web2API

namespace Web2API

theorem calculate_next_run_pos (si : JVal) (cronNext : String → Int → Option Int) (t : Int)
    (hsched : (jget si "type" .null = .str "interval" ∧
        ∃ m : Int, jget si "interval_minutes" (.num 60) = .num m ∧ 0 < m) ∨
      beqJ (jget si "type" .null) (.str "interval") = false)
    (hcron : ∀ c r, cronNext c t = some r → t < r) :
    ∃ nr, calculate_next_run si cronNext t = some nr ∧ t < nr := by
  unfold calculate_next_run
  rcases hsched with ⟨hty, m, hm, hmpos⟩ | hty
  · refine ⟨t + m, ?_, by omega⟩
    simp [hty, hm, beqJ]
  · rw [hty]
    simp only [Bool.false_eq_true, if_false]
    by_cases hc2 : beqJ (jget si "type" .null) (.str "cron") = true
    · rw [hc2]
      simp only [if_true]
      rcases hcv : jget si "cron" .null with _ | b | n | c | xs | fs
      · exact ⟨t + 60, rfl, by omega⟩
      · exact ⟨t + 60, rfl, by omega⟩
      · exact ⟨t + 60, rfl, by omega⟩
      · rcases hcr : cronNext c t with _ | r
        · exact ⟨t + 60, by simp [hcr], by omega⟩
        · exact ⟨r, by simp [hcr], hcron c r hcr⟩
      · exact ⟨t + 60, rfl, by omega⟩
      · exact ⟨t + 60, rfl, by omega⟩
    · have hc2' : beqJ (jget si "type" .null) (.str "cron") = false := by simpa using hc2
      rw [hc2']
      exact ⟨t + 60, rfl, by omega⟩

end Web2API

namespace Web2API

/-- C7: a monitor the scheduler tick fires (active, all required fields
present, due) ends with `last_run = now`, a `next_run` strictly above both
`now` (= the new `last_run`) and the pre-tick `next_run`, and `run_count`
exactly one higher — for interval schedules (positive minutes), cron
schedules (croniter returns an instant strictly after now, or the
60-minute error fallback), and the 60-minute fallback for unknown types. -/
theorem c7_scheduler_tick_monotonic
    (st : Store) (mfs : Obj) (job_id monitor_id scraper_id url : String)
    (cronNext : String → Int → Option Int) (now now2 nr0 rc : Int)
    (srow scraper si : JVal) (sOpts : Obj)
    (hact : truthy (jget (.obj mfs) "active" (.bool false)) = true)
    (hmid : jget (.obj mfs) "monitor_id" .null = .str monitor_id) (hmidne : monitor_id ≠ "")
    (hsid : jget (.obj mfs) "scraper_id" .null = .str scraper_id) (hsidne : scraper_id ≠ "")
    (hurl : jget (.obj mfs) "url" .null = .str url) (hurlne : url ≠ "")
    (hnr : jget (.obj mfs) "next_run" .null = .num nr0) (hnrne : nr0 ≠ 0)
    (hdue : nr0 ≤ now) (hnow : now ≤ now2)
    (hscr : Store.get st "scrapers" scraper_id = some srow)
    (hsrT : truthy srow = true)
    (hunwrap : inlineUnwrap srow = scraper)
    (hscrT : truthy scraper = true)
    (hsopt : jget scraper "options" (.obj []) = .obj sOpts)
    (hrc : jget (.obj mfs) "run_count" (.num 0) = .num rc)
    (hsieq : (if truthy (jget scraper "schedule_info" .null) then
        jget scraper "schedule_info" .null
      else .obj [("type", jget (.obj mfs) "schedule_type" (.str "interval")),
                 ("interval_minutes", jget (.obj mfs) "interval_minutes" .null),
                 ("cron", jget (.obj mfs) "cron" .null)]) = si)
    (hsched : (jget si "type" .null = .str "interval" ∧
        ∃ m : Int, jget si "interval_minutes" (.num 60) = .num m ∧ 0 < m) ∨
      beqJ (jget si "type" .null) (.str "interval") = false)
    (hcron : ∀ c r, cronNext c now2 = some r → now2 < r) :
    ∃ effs post nr',
      process_monitor st (.obj mfs) job_id cronNext now now2 = (effs, false) ∧
      Store.get (applyEffects st effs) "monitors" monitor_id = some post ∧
      jget post "last_run" .null = .num now ∧
      jget post "next_run" .null = .num nr' ∧
      now < nr' ∧ nr0 < nr' ∧
      jget post "run_count" .null = .num (rc + 1) := by
  obtain ⟨nr', hcn, hpos⟩ := calculate_next_run_pos si cronNext now2 hsched hcron
  have hT1 : truthy (JVal.str monitor_id) = true := by simp [truthy, hmidne]
  have hT2 : truthy (JVal.str scraper_id) = true := by simp [truthy, hsidne]
  have hT3 : truthy (JVal.str url) = true := by simp [truthy, hurlne]
  have hT4 : truthy (JVal.num nr0) = true := by simp [truthy, hnrne]
  have hnl : ¬ (now < nr0) := not_lt.mpr hdue
  have hmain : process_monitor st (.obj mfs) job_id cronNext now now2 =
      ([Effect.setState "jobs" job_id (create_job_metadata job_id scraper_id url
          (.obj (sOpts.foldl (fun acc kv => objSet acc kv.1 kv.2) [("use_cache", .bool false)]))
          now),
        Effect.setState "job_payloads" job_id
          (.obj [("schema", jget scraper "schema" .null), ("scraper_id", .str scraper_id)]),
        Effect.emitEvent "extraction.requested"
          (.obj [("job_id", .str job_id), ("url", .str url), ("scraper_id", .str scraper_id),
                 ("options", .obj (sOpts.foldl (fun acc kv => objSet acc kv.1 kv.2)
                   [("use_cache", .bool false)]))])
          (some (hash_url url)),
        Effect.setState "monitors" monitor_id
          (.obj (objSet (objSet (objSet (objSet mfs "last_run" (.num now))
            "next_run" (.num nr')) "run_count" (.num (rc + 1))) "last_job_id" (.str job_id)))],
       false) := by
    simp [process_monitor, hact, hmid, hsid, hurl, hnr, hT1, hT2, hT3, hT4, hnl, hscr, hsrT,
      hunwrap, hscrT, hsopt, hsieq, hcn, hrc, jSet]
  refine ⟨_, .obj (objSet (objSet (objSet (objSet mfs "last_run" (.num now))
      "next_run" (.num nr')) "run_count" (.num (rc + 1))) "last_job_id" (.str job_id)),
    nr', hmain, ?_, ?_, ?_, by omega, by omega, ?_⟩
  · simp [applyEffects, applyEffect, Store.get_set_self]
  · simp [jget_obj_objSet_self, jget_obj_objSet_ne]
  · simp [jget_obj_objSet_self, jget_obj_objSet_ne]
  · simp [jget_obj_objSet_self, jget_obj_objSet_ne]

end Web2API

namespace Web2API

/-- The scraper row and monitor used by the scheduler witnesses. -/
def schedScraperRow : JVal :=
  .obj [("schema", .str "extract the title"),
        ("schedule_info", .obj [("type", .str "interval"), ("cron", .null),
          ("interval_minutes", .num 10)]),
        ("options", .obj [])]

def schedMonitor : Obj :=
  [("monitor_id", .str "scr_1_m"), ("scraper_id", .str "scr_1"),
   ("url", .str "https://x/a"), ("next_run", .num 5), ("active", .bool true),
   ("run_count", .num 2)]

set_option maxRecDepth 1000000 in
/-- C7 witness: a due interval monitor fired at instant 6. -/
theorem c7_scheduler_tick_witness :
    ∃ effs post nr',
      process_monitor [("scrapers", "scr_1", schedScraperRow)] (.obj schedMonitor) "job_1"
        (fun _ _ => none) 6 6 = (effs, false) ∧
      Store.get (applyEffects [("scrapers", "scr_1", schedScraperRow)] effs)
        "monitors" "scr_1_m" = some post ∧
      jget post "last_run" .null = .num 6 ∧
      jget post "next_run" .null = .num nr' ∧
      (6 : Int) < nr' ∧ (5 : Int) < nr' ∧
      jget post "run_count" .null = .num (2 + 1) :=
  c7_scheduler_tick_monotonic [("scrapers", "scr_1", schedScraperRow)] schedMonitor
    "job_1" "scr_1_m" "scr_1" "https://x/a" (fun _ _ => none) 6 6 5 2
    schedScraperRow schedScraperRow
    (.obj [("type", .str "interval"), ("cron", .null), ("interval_minutes", .num 10)])
    []
    rfl rfl (by decide) rfl (by decide) rfl (by decide) rfl (by decide)
    (by decide) (by decide) rfl rfl rfl rfl rfl rfl rfl
    (Or.inl ⟨rfl, 10, rfl, by decide⟩) (fun _ _ h => nomatch h)

end Web2API

namespace Web2API

theorem olookup_foldl_objSet_none (l : Obj) (acc : Obj) (k : String)
    (h : olookup l k = none) :
    olookup (l.foldl (fun a kv => objSet a kv.1 kv.2) acc) k = olookup acc k := by
  induction l generalizing acc with
  | nil => rfl
  | cons kv rest ih =>
    cases kv with
    | mk k' v' =>
      simp only [olookup] at h
      by_cases hk : k' = k
      · simp [hk] at h
      · simp only [List.foldl_cons]
        rw [ih _ (by simpa [hk] using h)]
        exact olookup_objSet_ne _ _ (fun hh => hk hh.symm)

/-- The monitor used by the C8 counterexample: carries its own interval
fallback fields so the tick fires and completes. -/
def c8Monitor : Obj :=
  [("monitor_id", .str "scr_1_m"), ("scraper_id", .str "scr_1"),
   ("url", .str "https://x/a"), ("next_run", .num 5), ("active", .bool true),
   ("run_count", .num 2), ("schedule_type", .str "interval"), ("interval_minutes", .num 10)]

/-- A scraper row whose saved options carry `use_cache: true`. -/
def c8ScraperRow : JVal :=
  .obj [("schema", .str "extract the title"),
        ("options", .obj [("use_cache", .bool true), ("timeout", .num 30000)])]

set_option maxRecDepth 1000000 in
/-- C8 counterexample: the scheduler builds the emitted options as
`{"use_cache": False, **scraper.options}`, so a saved `use_cache: true`
overrides the `False` — the claim's "regardless of the stored scraper's
saved options" fails: the fired monitor's `extraction.requested` event
carries `use_cache = true`. -/
theorem c8_use_cache_override_counterexample :
    (process_monitor [("scrapers", "scr_1", c8ScraperRow)] (.obj c8Monitor) "job_1"
      (fun _ _ => none) 6 6).1.filter Effect.isEmit =
    [Effect.emitEvent "extraction.requested"
      (.obj [("job_id", .str "job_1"), ("url", .str "https://x/a"),
             ("scraper_id", .str "scr_1"),
             ("options", .obj [("use_cache", .bool true), ("timeout", .num 30000)])])
      (some "13a94853b455")] := rfl

/-- C8 (amended): for a fired monitor whose scraper's saved options do not
themselves contain a `use_cache` key — true of every scraper the
create-scraper endpoint persists, whose options hold exactly `timeout`,
`use_simple_scraper` and `wait_for` — the emitted `extraction.requested`
event has `options.use_cache = false` and `messageGroupId = hash_url(url)`,
the first 12 hex characters of SHA-256(url). -/
theorem c8_scheduled_event_fresh_and_grouped
    (st : Store) (mfs : Obj) (job_id monitor_id scraper_id url : String)
    (cronNext : String → Int → Option Int) (now now2 nr0 rc : Int)
    (srow scraper si : JVal) (sOpts : Obj)
    (hact : truthy (jget (.obj mfs) "active" (.bool false)) = true)
    (hmid : jget (.obj mfs) "monitor_id" .null = .str monitor_id) (hmidne : monitor_id ≠ "")
    (hsid : jget (.obj mfs) "scraper_id" .null = .str scraper_id) (hsidne : scraper_id ≠ "")
    (hurl : jget (.obj mfs) "url" .null = .str url) (hurlne : url ≠ "")
    (hnr : jget (.obj mfs) "next_run" .null = .num nr0) (hnrne : nr0 ≠ 0)
    (hdue : nr0 ≤ now) (hnow : now ≤ now2)
    (hscr : Store.get st "scrapers" scraper_id = some srow)
    (hsrT : truthy srow = true)
    (hunwrap : inlineUnwrap srow = scraper)
    (hscrT : truthy scraper = true)
    (hsopt : jget scraper "options" (.obj []) = .obj sOpts)
    (hrc : jget (.obj mfs) "run_count" (.num 0) = .num rc)
    (hsieq : (if truthy (jget scraper "schedule_info" .null) then
        jget scraper "schedule_info" .null
      else .obj [("type", jget (.obj mfs) "schedule_type" (.str "interval")),
                 ("interval_minutes", jget (.obj mfs) "interval_minutes" .null),
                 ("cron", jget (.obj mfs) "cron" .null)]) = si)
    (hsched : (jget si "type" .null = .str "interval" ∧
        ∃ m : Int, jget si "interval_minutes" (.num 60) = .num m ∧ 0 < m) ∨
      beqJ (jget si "type" .null) (.str "interval") = false)
    (hcron : ∀ c r, cronNext c now2 = some r → now2 < r)
    (huc : olookup sOpts "use_cache" = none) :
    ∃ evData effs,
      process_monitor st (.obj mfs) job_id cronNext now now2 = (effs, false) ∧
      Effect.emitEvent "extraction.requested" evData (some (hash_url url)) ∈ effs ∧
      jget (jget evData "options" .null) "use_cache" .null = .bool false ∧
      hash_url url = strTake (Sha256.sha256Hex url) 12 := by
  obtain ⟨nr', hcn, hpos⟩ := calculate_next_run_pos si cronNext now2 hsched hcron
  have hT1 : truthy (JVal.str monitor_id) = true := by simp [truthy, hmidne]
  have hT2 : truthy (JVal.str scraper_id) = true := by simp [truthy, hsidne]
  have hT3 : truthy (JVal.str url) = true := by simp [truthy, hurlne]
  have hT4 : truthy (JVal.num nr0) = true := by simp [truthy, hnrne]
  have hnl : ¬ (now < nr0) := not_lt.mpr hdue
  have hmain : process_monitor st (.obj mfs) job_id cronNext now now2 =
      ([Effect.setState "jobs" job_id (create_job_metadata job_id scraper_id url
          (.obj (sOpts.foldl (fun acc kv => objSet acc kv.1 kv.2) [("use_cache", .bool false)]))
          now),
        Effect.setState "job_payloads" job_id
          (.obj [("schema", jget scraper "schema" .null), ("scraper_id", .str scraper_id)]),
        Effect.emitEvent "extraction.requested"
          (.obj [("job_id", .str job_id), ("url", .str url), ("scraper_id", .str scraper_id),
                 ("options", .obj (sOpts.foldl (fun acc kv => objSet acc kv.1 kv.2)
                   [("use_cache", .bool false)]))])
          (some (hash_url url)),
        Effect.setState "monitors" monitor_id
          (.obj (objSet (objSet (objSet (objSet mfs "last_run" (.num now))
            "next_run" (.num nr')) "run_count" (.num (rc + 1))) "last_job_id" (.str job_id)))],
       false) := by
    simp [process_monitor, hact, hmid, hsid, hurl, hnr, hT1, hT2, hT3, hT4, hnl, hscr, hsrT,
      hunwrap, hscrT, hsopt, hsieq, hcn, hrc, jSet]
  refine ⟨.obj [("job_id", .str job_id), ("url", .str url), ("scraper_id", .str scraper_id),
      ("options", .obj (sOpts.foldl (fun acc kv => objSet acc kv.1 kv.2)
        [("use_cache", .bool false)]))], _, hmain, ?_, ?_, rfl⟩
  · simp
  · simp [jget, olookup]
    rw [olookup_foldl_objSet_none _ _ _ huc]
    rfl

end Web2API

namespace Web2API

set_option maxRecDepth 1000000 in
/-- C8 witness: a fired monitor of a scraper with no saved `use_cache`. -/
theorem c8_scheduled_event_witness :
    ∃ evData effs,
      process_monitor [("scrapers", "scr_1", schedScraperRow)] (.obj schedMonitor) "job_1"
        (fun _ _ => none) 6 6 = (effs, false) ∧
      Effect.emitEvent "extraction.requested" evData (some (hash_url "https://x/a")) ∈ effs ∧
      jget (jget evData "options" .null) "use_cache" .null = .bool false ∧
      hash_url "https://x/a" = strTake (Sha256.sha256Hex "https://x/a") 12 :=
  c8_scheduled_event_fresh_and_grouped [("scrapers", "scr_1", schedScraperRow)] schedMonitor
    "job_1" "scr_1_m" "scr_1" "https://x/a" (fun _ _ => none) 6 6 5 2
    schedScraperRow schedScraperRow
    (.obj [("type", .str "interval"), ("cron", .null), ("interval_minutes", .num 10)])
    []
    rfl rfl (by decide) rfl (by decide) rfl (by decide) rfl (by decide)
    (by decide) (by decide) rfl rfl rfl rfl rfl rfl rfl
    (Or.inl ⟨rfl, 10, rfl, by decide⟩) (fun _ _ h => nomatch h) rfl

end Web2API

namespace Web2API

/-- A `monitor_urls` entry that `create_monitors_for_urls` (and the
warm-cache loop) acts on: a string with non-blank strip. -/
def isValidUrl : JVal → Bool
  | .str s => !(pyStrip s == "")
  | _ => false

theorem create_monitor_for_url_spec (scraper_id : String) (si : JVal)
    (cronNext : String → Int → Option Int) (now nr : Int)
    (hsi : calculate_next_run si cronNext now = some nr) (u : JVal) :
    ∃ effs, create_monitor_for_url scraper_id si cronNext now u
      = some ((if isValidUrl u then 1 else 0), effs) ∧
      (∀ e ∈ effs, ∃ k v, e = Effect.setState "monitors" k v) ∧
      effs.length = (if isValidUrl u then 1 else 0) := by
  cases u <;> try exact ⟨[], rfl, by simp, rfl⟩
  case str s =>
    by_cases hb : pyStrip s = ""
    · exact ⟨[], by simp [create_monitor_for_url, isValidUrl, hb], by simp, by simp [isValidUrl, hb]⟩
    · rcases hcm : create_monitor scraper_id (pyStrip s) si .null cronNext now with _ | md
      · exfalso
        simp [create_monitor, hsi] at hcm
      · refine ⟨[Effect.setState "monitors" (generate_monitor_id scraper_id (pyStrip s)) md],
          ?_, by simp, by simp [isValidUrl, hb]⟩
        simp [create_monitor_for_url, isValidUrl, hb, hcm]

theorem create_monitors_fold_spec (scraper_id : String) (si : JVal)
    (cronNext : String → Int → Option Int) (now nr : Int)
    (hsi : calculate_next_run si cronNext now = some nr) (urls : List JVal) :
    ∀ (n0 : Nat) (effs0 : List Effect),
      ∃ effs, urls.foldl
        (fun acc u =>
          match acc with
          | none => none
          | some (n, effs) =>
            match create_monitor_for_url scraper_id si cronNext now u with
            | none => none
            | some (n', effs') => some (n + n', effs ++ effs'))
        (some (n0, effs0))
        = some (n0 + (urls.filter isValidUrl).length, effs0 ++ effs) ∧
      (∀ e ∈ effs, ∃ k v, e = Effect.setState "monitors" k v) ∧
      effs.length = (urls.filter isValidUrl).length := by
  induction urls with
  | nil => intro n0 effs0; exact ⟨[], by simp, by simp, by simp⟩
  | cons u rest ih =>
    intro n0 effs0
    obtain ⟨effs1, h1, hm1, hl1⟩ := create_monitor_for_url_spec scraper_id si cronNext now nr hsi u
    by_cases hv : isValidUrl u = true
    · have h1' : create_monitor_for_url scraper_id si cronNext now u = some (1, effs1) := by
        simp [h1, hv]
      obtain ⟨effs2, h2, hm2, hl2⟩ := ih (n0 + 1) (effs0 ++ effs1)
      refine ⟨effs1 ++ effs2, ?_, ?_, ?_⟩
      · simp only [List.foldl_cons, h1']
        rw [h2]
        have hcnt : n0 + 1 + (List.filter isValidUrl rest).length
            = n0 + (List.filter isValidUrl (u :: rest)).length := by
          simp only [List.filter_cons, hv, if_true, List.length_cons]
          omega
        rw [hcnt, List.append_assoc]
      · intro e he
        rcases List.mem_append.mp he with h | h
        · exact hm1 e h
        · exact hm2 e h
      · simp only [List.length_append, hl2, List.filter_cons, hv, if_true, List.length_cons]
        have : effs1.length = 1 := by simp [hl1, hv]
        omega
    · have hv' : isValidUrl u = false := by simpa using hv
      have he1 : effs1 = [] := List.length_eq_zero.mp (by simp [hl1, hv'])
      subst he1
      have h1' : create_monitor_for_url scraper_id si cronNext now u = some (0, []) := by
        simp [h1, hv']
      obtain ⟨effs2, h2, hm2, hl2⟩ := ih n0 effs0
      refine ⟨effs2, ?_, hm2, ?_⟩
      · simp only [List.foldl_cons, h1']
        have hstep : (some (n0 + 0, effs0 ++ ([] : List Effect)))
            = (some (n0, effs0) : Option (Nat × List Effect)) := by simp
        rw [hstep, h2]
        simp [List.filter_cons, hv']
      · simp [hl2, List.filter_cons, hv']

theorem create_monitors_for_urls_spec (scraper_id : String) (urls : List JVal) (si : JVal)
    (cronNext : String → Int → Option Int) (now nr : Int)
    (hsi : calculate_next_run si cronNext now = some nr) (htr : truthy si = true) :
    ∃ effs, create_monitors_for_urls scraper_id urls si cronNext now
      = some ((urls.filter isValidUrl).length, effs) ∧
      (∀ e ∈ effs, ∃ k v, e = Effect.setState "monitors" k v) ∧
      effs.length = (urls.filter isValidUrl).length := by
  cases urls with
  | nil => exact ⟨[], by simp [create_monitors_for_urls], by simp, by simp⟩
  | cons u rest =>
    obtain ⟨effs, h, hm, hl⟩ := create_monitors_fold_spec scraper_id si cronNext now nr hsi
      (u :: rest) 0 []
    refine ⟨effs, ?_, hm, hl⟩
    unfold create_monitors_for_urls
    simp only [List.isEmpty_cons, htr, Bool.not_true, Bool.or_false, Bool.false_or]
    simpa using h

end Web2API

namespace Web2API

theorem warm_fold_no_monitor_sets (scraper_id : String) (schema scraper_options : JVal)
    (jobIds : Nat → String) (now : Int) (urls : List JVal) :
    ∀ acc : Nat × List Effect,
      ((urls.foldl
        (fun (acc : Nat × List Effect) u =>
          match u with
          | .str s =>
            let url := pyStrip s
            if url = "" then acc
            else
              let job_id := jobIds acc.1
              (acc.1 + 1, acc.2 ++ [
                Effect.setState "jobs" job_id
                  (create_job_metadata job_id scraper_id url scraper_options now),
                Effect.setState "job_payloads" job_id
                  (.obj [("schema", schema), ("scraper_id", .str scraper_id)]),
                Effect.emitEvent "extraction.requested"
                  (.obj [("job_id", .str job_id), ("url", .str url),
                         ("scraper_id", .str scraper_id), ("options", scraper_options)])
                  (some job_id)])
          | _ => acc) acc).2).filter (Effect.isSetIn "monitors")
      = acc.2.filter (Effect.isSetIn "monitors") := by
  induction urls with
  | nil => intro acc; rfl
  | cons u rest ih =>
    intro acc
    rcases u with _ | b | m | s | xs | fs
    · exact ih acc
    · exact ih acc
    · exact ih acc
    · by_cases hb : pyStrip s = ""
      · simp only [List.foldl_cons, hb]
        exact ih acc
      · simp only [List.foldl_cons, hb]
        rw [ih _]
        simp [Effect.isSetIn]
    · exact ih acc
    · exact ih acc

end Web2API

namespace Web2API

/-- C9: with valid `name` and `schema`, an integer `schedule < 5` gets a
400 with exactly "schedule must be at least 5 minutes" and no state write
or event; an integer `schedule ≥ 5`, or a cron string, gets a 201, with
one monitor written per non-empty string entry of `monitor_urls`. -/
theorem c9_create_scraper_schedule_rules
    (st : Store) (body : Obj) (scraper_id name0 : String) (schemaJ : JVal)
    (jobIds : Nat → String) (cronNext : String → Int → Option Int) (now : Int)
    (optFs : Obj) (urls : List JVal)
    (hname : olookup body "name" = some (.str name0))
    (hname2 : pyStrip name0 ≠ "")
    (hschema : olookup body "schema" = some schemaJ)
    (hstype : (schemaJ.isStr || schemaJ.isObj) = true)
    (hopt : (olookup body "options").getD (.obj []) = .obj optFs)
    (hurls : (olookup body "monitor_urls").getD (.arr []) = .arr urls) :
    (∀ n : Int, olookup body "schedule" = some (.num n) → n < 5 →
      create_scraper_handler st body scraper_id jobIds cronNext now =
        (⟨400, .obj [("error", .str "schedule must be at least 5 minutes")]⟩, [])) ∧
    (∀ n : Int, olookup body "schedule" = some (.num n) → 5 ≤ n →
      (create_scraper_handler st body scraper_id jobIds cronNext now).1.status = 201 ∧
      ((create_scraper_handler st body scraper_id jobIds cronNext now).2.filter
        (Effect.isSetIn "monitors")).length = (urls.filter isValidUrl).length) ∧
    (∀ c : String, olookup body "schedule" = some (.str c) →
      (create_scraper_handler st body scraper_id jobIds cronNext now).1.status = 201 ∧
      ((create_scraper_handler st body scraper_id jobIds cronNext now).2.filter
        (Effect.isSetIn "monitors")).length = (urls.filter isValidUrl).length) := by
  have hnn : beqJ schemaJ .null = false := by
    cases schemaJ <;> first
      | rfl
      | simp [JVal.isStr, JVal.isObj] at hstype
  refine ⟨?_, ?_, ?_⟩
  · intro n hs hlt
    simp [create_scraper_handler, hname, hname2, hschema, hnn, hstype, hs, scheduleCheck, hlt]
  · intro n hs hge
    have hnl : ¬ (n < 5) := not_lt.mpr hge
    have hsi : calculate_next_run
        (.obj [("type", .str "interval"), ("cron", .null), ("interval_minutes", .num n)])
        cronNext now = some (now + n) := by
      simp [calculate_next_run, jget, olookup, beqJ]
    cases urls with
    | nil =>
      constructor
      · simp [create_scraper_handler, hname, hname2, hschema, hnn, hstype, hs, scheduleCheck,
          hnl, parse_schedule, hopt, hurls, truthy]
      · simp [create_scraper_handler, hname, hname2, hschema, hnn, hstype, hs, scheduleCheck,
          hnl, parse_schedule, hopt, hurls, truthy, Effect.isSetIn]
    | cons u0 urest =>
      obtain ⟨monEffs, hm, hmon, hlen⟩ := create_monitors_for_urls_spec scraper_id
        (u0 :: urest) (.obj [("type", .str "interval"), ("cron", .null),
          ("interval_minutes", .num n)]) cronNext now (now + n) hsi rfl
      have hfm : monEffs.filter (Effect.isSetIn "monitors") = monEffs :=
        List.filter_eq_self.mpr (fun e he => by
          obtain ⟨k, v, rfl⟩ := hmon e he
          simp [Effect.isSetIn])
      constructor
      · simp [create_scraper_handler, hname, hname2, hschema, hnn, hstype, hs, scheduleCheck,
          hnl, parse_schedule, hopt, hurls, truthy, pyIter, hm]
      · simp [create_scraper_handler, hname, hname2, hschema, hnn, hstype, hs, scheduleCheck,
          hnl, parse_schedule, hopt, hurls, truthy, pyIter, hm, List.filter_append,
          warm_fold_no_monitor_sets, hfm, hlen, Effect.isSetIn, -List.foldl_cons]
  · intro c hs
    have hsi : calculate_next_run
        (.obj [("type", .str "cron"), ("cron", .str c), ("interval_minutes", .null)])
        cronNext now = some (match cronNext c now with | some r => r | none => now + 60) := by
      simp [calculate_next_run, jget, olookup, beqJ]
      rcases cronNext c now with _ | r <;> simp
    cases urls with
    | nil =>
      constructor
      · simp [create_scraper_handler, hname, hname2, hschema, hnn, hstype, hs, scheduleCheck,
          parse_schedule, hopt, hurls, truthy]
      · simp [create_scraper_handler, hname, hname2, hschema, hnn, hstype, hs, scheduleCheck,
          parse_schedule, hopt, hurls, truthy, Effect.isSetIn]
    | cons u0 urest =>
      obtain ⟨monEffs, hm, hmon, hlen⟩ := create_monitors_for_urls_spec scraper_id
        (u0 :: urest) (.obj [("type", .str "cron"), ("cron", .str c),
          ("interval_minutes", .null)]) cronNext now _ hsi rfl
      have hfm : monEffs.filter (Effect.isSetIn "monitors") = monEffs :=
        List.filter_eq_self.mpr (fun e he => by
          obtain ⟨k, v, rfl⟩ := hmon e he
          simp [Effect.isSetIn])
      constructor
      · simp [create_scraper_handler, hname, hname2, hschema, hnn, hstype, hs, scheduleCheck,
          parse_schedule, hopt, hurls, truthy, pyIter, hm]
      · simp [create_scraper_handler, hname, hname2, hschema, hnn, hstype, hs, scheduleCheck,
          parse_schedule, hopt, hurls, truthy, pyIter, hm, List.filter_append,
          warm_fold_no_monitor_sets, hfm, hlen, Effect.isSetIn, -List.foldl_cons]

end Web2API

namespace Web2API

/-- Concrete instance for C9: schedule 3 gets the exact 400 message,
schedule 5 gets a 201 with two monitors for the two non-empty urls. -/
theorem c9_create_scraper_witness :
    create_scraper_handler [] [("name", JVal.str "s"), ("schema", JVal.str "p"),
        ("schedule", JVal.num 3),
        ("monitor_urls", JVal.arr [JVal.str "https://a", JVal.str " ", JVal.str "https://b"])]
      "sc" (fun _ => "j") (fun _ t => some (t + 7)) 0
      = (⟨400, .obj [("error", .str "schedule must be at least 5 minutes")]⟩, []) ∧
    (create_scraper_handler [] [("name", JVal.str "s"), ("schema", JVal.str "p"),
        ("schedule", JVal.num 5),
        ("monitor_urls", JVal.arr [JVal.str "https://a", JVal.str " ", JVal.str "https://b"])]
      "sc" (fun _ => "j") (fun _ t => some (t + 7)) 0).1.status = 201 ∧
    ((create_scraper_handler [] [("name", JVal.str "s"), ("schema", JVal.str "p"),
        ("schedule", JVal.num 5),
        ("monitor_urls", JVal.arr [JVal.str "https://a", JVal.str " ", JVal.str "https://b"])]
      "sc" (fun _ => "j") (fun _ t => some (t + 7)) 0).2.filter
        (Effect.isSetIn "monitors")).length = 2 := by
  refine ⟨?_, ?_, ?_⟩
  · exact (c9_create_scraper_schedule_rules [] [("name", JVal.str "s"),
      ("schema", JVal.str "p"), ("schedule", JVal.num 3),
      ("monitor_urls", JVal.arr [JVal.str "https://a", JVal.str " ", JVal.str "https://b"])]
      "sc" "s" (.str "p") (fun _ => "j") (fun _ t => some (t + 7)) 0 []
      [JVal.str "https://a", JVal.str " ", JVal.str "https://b"]
      rfl (by decide) rfl rfl rfl rfl).1 3 rfl (by decide)
  · exact ((c9_create_scraper_schedule_rules [] [("name", JVal.str "s"),
      ("schema", JVal.str "p"), ("schedule", JVal.num 5),
      ("monitor_urls", JVal.arr [JVal.str "https://a", JVal.str " ", JVal.str "https://b"])]
      "sc" "s" (.str "p") (fun _ => "j") (fun _ t => some (t + 7)) 0 []
      [JVal.str "https://a", JVal.str " ", JVal.str "https://b"]
      rfl (by decide) rfl rfl rfl rfl).2.1 5 rfl (by decide)).1
  · exact (((c9_create_scraper_schedule_rules [] [("name", JVal.str "s"),
      ("schema", JVal.str "p"), ("schedule", JVal.num 5),
      ("monitor_urls", JVal.arr [JVal.str "https://a", JVal.str " ", JVal.str "https://b"])]
      "sc" "s" (.str "p") (fun _ => "j") (fun _ t => some (t + 7)) 0 []
      [JVal.str "https://a", JVal.str " ", JVal.str "https://b"]
      rfl (by decide) rfl rfl rfl rfl).2.1 5 rfl (by decide)).2).trans (by decide)

end Web2API
